import Mathlib

/-!
# The portfolio page script (`src/script.js`)

A shallow embedding of the `DOMContentLoaded` handler of `script.js` and of the
listeners and observer callbacks it installs.

* The document is represented by the elements the script looks up at load time
  (`mobileToggle`, `navList`, `navLinks`, `themeToggle`, `header`, `body`, the
  in-page anchors, the reveal elements, the sections and the form inputs).  An
  element that a selector does not find is `none` (or an empty list).  The
  elements found by different selectors are different elements; an anchor that
  is also a nav link says which one it is.
* `classList` is a list of tokens with the `add` / `remove` / `toggle`
  operations of `DOMTokenList`.
* JavaScript numbers (pixel offsets) are rationals: every finite double is a
  rational and the comparison `scrollY > 50` is exact on them.  The sum and the
  difference of two numbers are what the platform computes on doubles; these
  two operations are arguments (`View.add`, `View.sub`), not the exact sum and
  difference of rationals.
* Variables captured by closures (`headerOffset`, `ticking`), the listeners
  registered with `addEventListener`, the callbacks queued with
  `requestAnimationFrame` / `setTimeout`, the targets of the two intersection
  observers and the calls made to `window.scrollTo` are fields of `Page`.
* What the platform decides (the media query, the layout numbers, which
  selector resolves to which element, the entries of an observer callback) is
  an argument of the function that reads it.
* An `Event` is one invocation of a listener, timer, frame or observer callback
  by the platform, or a change of the layout of the header; a click of the user
  is the sequence of the listeners it reaches.
* The two `console.log` calls and the text of the transition rule are not
  represented.

The definitions come first, then the facts about them; the theorems that
settle the claims `C1` .. `C10` of the specification name their claim.
-/

namespace Portfolio

/-! ## `classList` -/

namespace ClassList

/-- `classList.add(t)`: the token is appended unless it is already there. -/
def add (cl : List String) (t : String) : List String :=
  if t ∈ cl then cl else cl ++ [t]

/-- `classList.remove(t)`. -/
def remove (cl : List String) (t : String) : List String :=
  cl.filter (fun c => c ≠ t)

/-- `classList.toggle(t)`: removes the token and returns `false` when it is
present, adds it and returns `true` otherwise. -/
def toggle (cl : List String) (t : String) : List String × Bool :=
  if t ∈ cl then (remove cl t, false) else (add cl t, true)

end ClassList

/-! ## `localStorage` -/

/-- The key/value pairs of `localStorage`. -/
abbrev Storage := List (String × String)

/-- `localStorage.getItem(k)`; `none` is the JavaScript `null`. -/
def getItem (st : Storage) (k : String) : Option String :=
  st.lookup k

/-- `localStorage.setItem(k, v)`. -/
def setItem (st : Storage) (k v : String) : Storage :=
  (k, v) :: st.filter (fun p => p.1 ≠ k)

/-- JavaScript truthiness of a `string | null`: `null` and `''` are falsy. -/
def truthy : Option String → Bool
  | none => false
  | some v => v ≠ ""

/-- String conversion of a boolean, as done by `setAttribute(name, bool)`. -/
def boolString (b : Bool) : String :=
  if b then "true" else "false"

/-! ## Elements -/

/-- The element matched by `.mobileToggle`. -/
structure MobileToggle where
  classList : List String
  ariaExpanded : Option String
deriving DecidableEq, Repr

/-- The element matched by `.navList`. -/
structure NavList where
  classList : List String
deriving DecidableEq, Repr

/-- An element matched by `.navLink`. -/
structure NavLink where
  href : Option String
  classList : List String
deriving DecidableEq, Repr

/-- The `i` element inside the theme toggle. -/
structure Icon where
  classList : List String
deriving DecidableEq, Repr

/-- The element with id `theme-toggle`; `transform` is `style.transform`. -/
structure ThemeToggle where
  icon : Option Icon
  transform : String
deriving DecidableEq, Repr

/-- The element matched by `.header`. -/
structure Header where
  classList : List String
  offsetHeight : ℚ
deriving DecidableEq, Repr

/-- The `document.body`; `overflow` is `style.overflow`. -/
structure Body where
  classList : List String
  overflow : String
deriving DecidableEq, Repr

/-- An element matched by `a[href^="#"]`.  `navLink = some i` says that the
anchor is the nav link number `i` (it carries the class `navLink`). -/
structure Anchor where
  href : String
  navLink : Option Nat
deriving DecidableEq, Repr

/-- An element matched by the reveal selectors.  `transition = some i` stands
for the staggered transition rule the script builds from the index `i`. -/
structure RevealElement where
  classList : List String
  opacity : String
  transform : String
  transition : Option Nat
deriving DecidableEq, Repr

/-- An element matched by `section[id]`. -/
structure Section where
  id : String
deriving DecidableEq, Repr

/-- An element matched by `.formInput, .formTextarea`; `parentElement` is an
index into `Document.parents`, `none` for an input without a parent. -/
structure FormInput where
  parentElement : Option Nat
deriving DecidableEq, Repr

/-- The part of the document the script reads and writes. -/
structure Document where
  mobileToggle : Option MobileToggle
  navList : Option NavList
  navLinks : List NavLink
  themeToggle : Option ThemeToggle
  header : Option Header
  body : Body
  anchors : List Anchor
  revealElements : List RevealElement
  sections : List Section
  formInputs : List FormInput
  parents : List (List String)
  headStyles : List String
deriving DecidableEq, Repr

/-! ## Script state -/

/-- The listeners the script registers with `addEventListener`. -/
inductive Listener where
  | mobileToggleClick
  | navLinkClick (i : Nat)
  | documentClick
  | themeToggleClick
  | anchorClick (a : Anchor)
  | windowScroll
  | inputFocus (k : Nat)
  | inputBlur (k : Nat)
deriving DecidableEq, Repr

/-- The argument of one `window.scrollTo` call. -/
structure ScrollToOptions where
  top : ℚ
  behavior : String
deriving DecidableEq, Repr

/-- The document, the storage and the state owned by the script. -/
structure Page where
  doc : Document
  localStorage : Storage
  listeners : List Listener
  headerOffset : ℚ
  ticking : Bool
  pendingFrames : Nat
  pendingTimeouts : Nat
  revealObserved : List Nat
  sectionObserved : List Section
  scrollToCalls : List ScrollToOptions
deriving DecidableEq, Repr

/-- The page when `DOMContentLoaded` fires: nothing registered, queued or
observed yet.  `headerOffset` and `ticking` are assigned by the controllers
before any listener reads them. -/
def Page.atLoad (doc : Document) (storage : Storage) : Page :=
  { doc := doc, localStorage := storage, listeners := [], headerOffset := 0,
    ticking := false, pendingFrames := 0, pendingTimeouts := 0,
    revealObserved := [], sectionObserved := [], scrollToCalls := [] }

/-! ## Mobile navigation -/

/-- The click listener of the hamburger control. -/
def mobileToggleClick (s : Page) : Page :=
  match s.doc.mobileToggle, s.doc.navList with
  | some mobileToggle, some navList =>
    let isOpen := (ClassList.toggle navList.classList "active").2
    { s with doc := { s.doc with
        navList := some { classList := (ClassList.toggle navList.classList "active").1 },
        mobileToggle := some
          { classList := (ClassList.toggle mobileToggle.classList "active").1,
            ariaExpanded := some (boolString isOpen) },
        body := { s.doc.body with overflow := if isOpen then "hidden" else "" } } }
  | _, _ => s

/-- The click listener of each nav link. -/
def navLinkClick (s : Page) : Page :=
  match s.doc.mobileToggle, s.doc.navList with
  | some mobileToggle, some navList =>
    { s with doc := { s.doc with
        navList := some { classList := ClassList.remove navList.classList "active" },
        mobileToggle := some
          { classList := ClassList.remove mobileToggle.classList "active",
            ariaExpanded := some "false" },
        body := { s.doc.body with overflow := "" } } }
  | _, _ => s

/-- The click listener of the document.  `inToggle` is
`mobileToggle.contains(e.target)` and `inNavList` is
`navList.contains(e.target)`. -/
def documentClick (inToggle inNavList : Bool) (s : Page) : Page :=
  match s.doc.mobileToggle, s.doc.navList with
  | some mobileToggle, some navList =>
    if !inToggle && !inNavList then
      { s with doc := { s.doc with
          navList := some { classList := ClassList.remove navList.classList "active" },
          mobileToggle := some
            { classList := ClassList.remove mobileToggle.classList "active",
              ariaExpanded := some "false" },
          body := { s.doc.body with overflow := "" } } }
    else s
  | _, _ => s

/-- The controller `initMobileNavigation`. -/
def initMobileNavigation (s : Page) : Page :=
  match s.doc.mobileToggle, s.doc.navList with
  | some _, some _ =>
    { s with listeners := s.listeners ++ [Listener.mobileToggleClick]
        ++ (List.range s.doc.navLinks.length).map Listener.navLinkClick
        ++ [Listener.documentClick] }
  | _, _ => s

/-! ## Theme toggle -/

/-- The storage key of the theme preference. -/
def THEME_KEY : String := "logiclens-theme"

/-- The icon after `remove('fa-moon'); add('fa-sun')`. -/
def Icon.sun (icon : Icon) : Icon :=
  { classList := ClassList.add (ClassList.remove icon.classList "fa-moon") "fa-sun" }

/-- The icon after `remove('fa-sun'); add('fa-moon')`. -/
def Icon.moon (icon : Icon) : Icon :=
  { classList := ClassList.add (ClassList.remove icon.classList "fa-sun") "fa-moon" }

/-- The click listener of the theme toggle. -/
def themeToggleClick (s : Page) : Page :=
  match s.doc.themeToggle with
  | none => s
  | some themeToggle =>
    let isLight := (ClassList.toggle s.doc.body.classList "light-theme").2
    { s with
      doc := { s.doc with
        body := { s.doc.body with
          classList := (ClassList.toggle s.doc.body.classList "light-theme").1 },
        themeToggle := some
          { icon := themeToggle.icon.map
              (fun icon => if isLight then icon.sun else icon.moon),
            transform := "scale(0.9)" } },
      localStorage := setItem s.localStorage THEME_KEY (if isLight then "light" else "dark"),
      pendingTimeouts := s.pendingTimeouts + 1 }

/-- The callback of the 150 ms timer started by a theme click. -/
def themeTimeout (s : Page) : Page :=
  match s.doc.themeToggle with
  | none => s
  | some themeToggle =>
    { s with
      doc := { s.doc with themeToggle := some { themeToggle with transform := "scale(1)" } },
      pendingTimeouts := s.pendingTimeouts - 1 }

/-- The controller `initThemeToggle`; `prefersDark` is the result of
`matchMedia('(prefers-color-scheme: dark)').matches`. -/
def initThemeToggle (prefersDark : Bool) (s : Page) : Page :=
  match s.doc.themeToggle with
  | none => s
  | some themeToggle =>
    let savedTheme := getItem s.localStorage THEME_KEY
    let s1 : Page :=
      if savedTheme = some "light" ∨ (truthy savedTheme = false ∧ prefersDark = false) then
        { s with doc := { s.doc with
            body := { s.doc.body with
              classList := ClassList.add s.doc.body.classList "light-theme" },
            themeToggle := some { themeToggle with icon := themeToggle.icon.map Icon.sun } } }
      else s
    { s1 with listeners := s1.listeners ++ [Listener.themeToggleClick] }

/-! ## Smooth scrolling -/

/-- The three outcomes of `document.querySelector`. -/
inductive QueryResult where
  | syntaxError
  | null
  | found (element : Nat)
deriving DecidableEq, Repr

/-- What the platform reports at the time of an anchor click.  `ids` lists the
`id` attribute of the elements that have one, in document order, and an
element is named by its position in that list.  `rectTop e` is
`getBoundingClientRect().top` of element `e`.  `otherSelector` is the outcome
of `document.querySelector` on a selector that `querySelector` below does not
decide itself.  `add x y` and `sub x y` are the values of `x + y` and `x - y`
on JavaScript numbers, each rounded by the platform to a double. -/
structure View where
  ids : List String
  rectTop : Nat → ℚ
  pageYOffset : ℚ
  otherSelector : String → QueryResult
  add : ℚ → ℚ → ℚ
  sub : ℚ → ℚ → ℚ

/-- A character that may start a CSS identifier (ASCII letters and the
underscore). -/
def isNameStart (c : Char) : Bool :=
  c.isAlpha || c == '_'

/-- A character that may continue a CSS identifier (ASCII subset). -/
def isNameChar (c : Char) : Bool :=
  c.isAlphanum || c == '_' || c == '-'

/-- The platform function `document.querySelector` on the selectors the anchor
listener passes to it.  A lone `#` is not a selector.  A `#` followed by
identifier characters is an ID selector when the name starts as an identifier
and then selects the first element with that id; when the name starts with a
digit the string is not a valid selector.  Every other selector is left to
`View.otherSelector`. -/
def querySelector (v : View) (selector : String) : QueryResult :=
  match selector.toList with
  | ['#'] => QueryResult.syntaxError
  | '#' :: c :: cs =>
    if (c :: cs).all isNameChar then
      if c.isDigit then QueryResult.syntaxError
      else if isNameStart c then
        match v.ids.indexOf? (String.mk (c :: cs)) with
        | some e => QueryResult.found e
        | none => QueryResult.null
      else v.otherSelector selector
    else v.otherSelector selector
  | _ => v.otherSelector selector

/-- The exception a listener can end with. -/
inductive Exception where
  | syntaxError
  | typeError
deriving DecidableEq, Repr

/-- The result of a click listener that returns normally: the page and whether
`e.preventDefault()` was called. -/
structure ClickOutcome where
  page : Page
  defaultPrevented : Bool
deriving DecidableEq, Repr

/-- The click listener of the anchor `this`. -/
def anchorClick (v : View) (this : Anchor) (s : Page) : Except Exception ClickOutcome :=
  let targetId := this.href
  if targetId = "#" then Except.ok { page := s, defaultPrevented := false }
  else
    match querySelector v targetId with
    | QueryResult.syntaxError => Except.error Exception.syntaxError
    | QueryResult.null => Except.ok { page := s, defaultPrevented := false }
    | QueryResult.found target =>
      let targetPosition :=
        v.add (v.sub (v.add (v.rectTop target) v.pageYOffset) s.headerOffset) 70
      let cleared := s.doc.navLinks.map
        (fun link => { link with classList := ClassList.remove link.classList "active" })
      let navLinks :=
        match this.navLink with
        | some i => cleared.modify
            (fun link => { link with classList := ClassList.add link.classList "active" }) i
        | none => cleared
      Except.ok
        { page := { s with
            doc := { s.doc with navLinks := navLinks },
            scrollToCalls := s.scrollToCalls ++ [{ top := targetPosition, behavior := "smooth" }] },
          defaultPrevented := true }

/-- The controller `initSmoothScrolling`. -/
def initSmoothScrolling (s : Page) : Page :=
  let headerOffset : ℚ :=
    match s.doc.header with
    | some header => header.offsetHeight
    | none => 70
  { s with headerOffset := headerOffset,
           listeners := s.listeners ++ s.doc.anchors.map Listener.anchorClick }

/-! ## Header scroll effects -/

/-- The threshold of the header effect. -/
def scrollThreshold : ℚ := 50

/-- The animation-frame callback `updateHeader`; `scrollY` is `window.scrollY`
when it runs. -/
def updateHeader (scrollY : ℚ) (s : Page) : Page :=
  match s.doc.header with
  | none => s
  | some header =>
    { s with
      doc := { s.doc with header := some { header with
        classList :=
          if scrollY > scrollThreshold then ClassList.add header.classList "scrolled"
          else ClassList.remove header.classList "scrolled" } },
      ticking := false }

/-- The scroll listener of the window. -/
def windowScroll (s : Page) : Page :=
  if !s.ticking then
    { s with pendingFrames := s.pendingFrames + 1, ticking := true }
  else s

/-- One animation frame: every callback queued with `requestAnimationFrame`
since the last frame is run. -/
def animationFrame (scrollY : ℚ) (s : Page) : Page :=
  (updateHeader scrollY)^[s.pendingFrames] { s with pendingFrames := 0 }

/-- The controller `initHeaderEffects`. -/
def initHeaderEffects (s : Page) : Page :=
  match s.doc.header with
  | none => s
  | some _ =>
    { s with ticking := false, listeners := s.listeners ++ [Listener.windowScroll] }

/-! ## Scroll reveal -/

/-- One entry of an intersection-observer callback of the reveal observer;
`target` is the position of the element in `revealElements`. -/
structure RevealEntry where
  target : Nat
  isIntersecting : Bool
deriving DecidableEq, Repr

/-- The body of the reveal callback for one entry. -/
def revealEntry (s : Page) (entry : RevealEntry) : Page :=
  if entry.isIntersecting then
    let revealElements := s.doc.revealElements.modify
      (fun el => { el with classList := ClassList.add el.classList "revealed" })
      entry.target
    { s with
      doc := { s.doc with revealElements := revealElements },
      revealObserved := s.revealObserved.filter (fun t => t ≠ entry.target) }
  else s

/-- The callback of the reveal observer. -/
def revealCallback (entries : List RevealEntry) (s : Page) : Page :=
  entries.foldl revealEntry s

/-- The text of the style element the reveal controller adds. -/
def revealedRule : String :=
  ".revealed \x7b opacity: 1 !important; transform: translateY(0) !important; \x7d"

/-- The controller `initScrollReveal`. -/
def initScrollReveal (s : Page) : Page :=
  let revealElements := s.doc.revealElements.mapIdx
    (fun index el =>
      { el with opacity := "0", transform := "translateY(30px)", transition := some index })
  { s with
    doc := { s.doc with
      revealElements := revealElements,
      headStyles := s.doc.headStyles ++ [revealedRule] },
    revealObserved := s.revealObserved ++ List.range s.doc.revealElements.length }

/-! ## Active nav link on scroll -/

/-- One entry of a callback of the section observer. -/
structure SectionEntry where
  target : Section
  isIntersecting : Bool
deriving DecidableEq, Repr

/-- The body of the section callback for one entry. -/
def sectionEntry (s : Page) (entry : SectionEntry) : Page :=
  if entry.isIntersecting then
    let id := entry.target.id
    let navLinks := s.doc.navLinks.map
      (fun link =>
        if link.href = some ("#" ++ id) then
          { link with classList :=
              ClassList.add (ClassList.remove link.classList "active") "active" }
        else
          { link with classList := ClassList.remove link.classList "active" })
    { s with doc := { s.doc with navLinks := navLinks } }
  else s

/-- The callback of the section observer. -/
def sectionCallback (entries : List SectionEntry) (s : Page) : Page :=
  entries.foldl sectionEntry s

/-- The controller `initActiveNavOnScroll`. -/
def initActiveNavOnScroll (s : Page) : Page :=
  { s with sectionObserved := s.sectionObserved ++ s.doc.sections }

/-! ## Form inputs -/

/-- The focus listener of form input `k`. -/
def inputFocus (k : Nat) (s : Page) : Except Exception Page :=
  match s.doc.formInputs[k]? with
  | none => Except.ok s
  | some input =>
    match input.parentElement with
    | none => Except.error Exception.typeError
    | some p =>
      let parents := s.doc.parents.modify (fun cl => ClassList.add cl "focused") p
      Except.ok { s with doc := { s.doc with parents := parents } }

/-- The blur listener of form input `k`. -/
def inputBlur (k : Nat) (s : Page) : Except Exception Page :=
  match s.doc.formInputs[k]? with
  | none => Except.ok s
  | some input =>
    match input.parentElement with
    | none => Except.error Exception.typeError
    | some p =>
      let parents := s.doc.parents.modify (fun cl => ClassList.remove cl "focused") p
      Except.ok { s with doc := { s.doc with parents := parents } }

/-- The controller `initFormAnimations`. -/
def initFormAnimations (s : Page) : Page :=
  let added := (List.range s.doc.formInputs.length).flatMap
    (fun k => [Listener.inputFocus k, Listener.inputBlur k])
  { s with listeners := s.listeners ++ added }

/-! ## Start-up and events -/

/-- The `DOMContentLoaded` handler: the seven controllers in source order. -/
def DOMContentLoaded (prefersDark : Bool) (doc : Document) (storage : Storage) : Page :=
  initFormAnimations
    (initActiveNavOnScroll
      (initScrollReveal
        (initHeaderEffects
          (initSmoothScrolling
            (initThemeToggle prefersDark
              (initMobileNavigation (Page.atLoad doc storage)))))))

/-- What can happen after start-up: one listener, timer, frame or observer
callback of the script is invoked by the platform, or the layout changes the
rendered height of the header (`headerResize`; the script has no listener for
it). -/
inductive Event where
  | mobileToggleClick
  | navLinkClick (i : Nat)
  | documentClick (inToggle inNavList : Bool)
  | themeToggleClick
  | timeout
  | anchorClick (v : View) (a : Anchor)
  | windowScroll
  | animationFrame (scrollY : ℚ)
  | revealCallback (entries : List RevealEntry)
  | sectionCallback (entries : List SectionEntry)
  | inputFocus (k : Nat)
  | inputBlur (k : Nat)
  | headerResize (offsetHeight : ℚ)

/-- The page after an event.  A listener runs only if it was registered, a
timer only if one is pending, an observer reports only targets it observes; a
listener that throws leaves the page as it was (no listener of the script
writes before it can throw). -/
def step (s : Page) : Event → Page
  | Event.mobileToggleClick =>
    if Listener.mobileToggleClick ∈ s.listeners then mobileToggleClick s else s
  | Event.navLinkClick i =>
    if Listener.navLinkClick i ∈ s.listeners then navLinkClick s else s
  | Event.documentClick inToggle inNavList =>
    if Listener.documentClick ∈ s.listeners then documentClick inToggle inNavList s else s
  | Event.themeToggleClick =>
    if Listener.themeToggleClick ∈ s.listeners then themeToggleClick s else s
  | Event.timeout =>
    if 0 < s.pendingTimeouts then themeTimeout s else s
  | Event.anchorClick v a =>
    if Listener.anchorClick a ∈ s.listeners then
      match anchorClick v a s with
      | Except.ok outcome => outcome.page
      | Except.error _ => s
    else s
  | Event.windowScroll =>
    if Listener.windowScroll ∈ s.listeners then windowScroll s else s
  | Event.animationFrame scrollY => animationFrame scrollY s
  | Event.revealCallback entries =>
    revealCallback (entries.filter (fun e => e.target ∈ s.revealObserved)) s
  | Event.sectionCallback entries =>
    sectionCallback (entries.filter (fun e => e.target ∈ s.sectionObserved)) s
  | Event.inputFocus k =>
    if Listener.inputFocus k ∈ s.listeners then
      match inputFocus k s with
      | Except.ok s1 => s1
      | Except.error _ => s
    else s
  | Event.inputBlur k =>
    if Listener.inputBlur k ∈ s.listeners then
      match inputBlur k s with
      | Except.ok s1 => s1
      | Except.error _ => s
    else s
  | Event.headerResize offsetHeight =>
    match s.doc.header with
    | none => s
    | some header =>
      { s with doc := { s.doc with header := some { header with offsetHeight := offsetHeight } } }

/-- The page after a sequence of events. -/
def run (s : Page) (events : List Event) : Page :=
  events.foldl step s

/-! ## Sample pages -/

/-- A document with every element the script looks for: the hamburger control,
the nav list, two nav links, the theme toggle with a moon icon, the header, two
further in-page anchors, two reveal elements, two sections and one form input. -/
def sampleDocument : Document :=
  { mobileToggle := some { classList := ["mobileToggle"], ariaExpanded := some "false" },
    navList := some { classList := ["navList"] },
    navLinks :=
      [{ href := some "#home", classList := ["navLink", "active"] },
       { href := some "#about", classList := ["navLink"] }],
    themeToggle := some { icon := some { classList := ["fas", "fa-moon"] }, transform := "" },
    header := some { classList := ["header"], offsetHeight := 80 },
    body := { classList := [], overflow := "" },
    anchors :=
      [{ href := "#home", navLink := some 0 }, { href := "#about", navLink := some 1 },
       { href := "#", navLink := none }, { href := "#1", navLink := none }],
    revealElements :=
      [{ classList := ["projectCard"], opacity := "", transform := "", transition := none },
       { classList := ["statItem"], opacity := "", transform := "", transition := none }],
    sections := [{ id := "home" }, { id := "about" }],
    formInputs := [{ parentElement := some 0 }],
    parents := [["formGroup"]],
    headStyles := [] }

/-- The sample document after start-up for a first-time visitor (nothing in
storage) whose system prefers a dark scheme. -/
def samplePage : Page :=
  DOMContentLoaded true sampleDocument []

/-- The layout of the sample document at some moment: the sections `home` and
`about` are the elements with an id, `about` is 600 pixels below the top of
the viewport and the page is scrolled by 120 pixels.  The numbers that occur
are small integers, on which the sum and the difference of doubles are exact. -/
def sampleView : View :=
  { ids := ["home", "about"],
    rectTop := fun e => if e = 1 then 600 else 0,
    pageYOffset := 120,
    otherSelector := fun _ => QueryResult.null,
    add := fun x y => x + y,
    sub := fun x y => x - y }

/-- The sample layout for a document in which a third element has the id `1`,
400 pixels below the top of the viewport. -/
def digitIdView : View :=
  { sampleView with
    ids := ["home", "about", "1"],
    rectTop := fun e => if e = 1 then 600 else if e = 2 then 400 else 0 }

/-- The sample document with a body that carries `light-theme` in the markup. -/
def lightMarkupDocument : Document :=
  { sampleDocument with body := { classList := ["light-theme"], overflow := "" } }

/-- A document in which none of the elements the script looks for exists. -/
def emptyDocument : Document :=
  { mobileToggle := none, navList := none, navLinks := [], themeToggle := none,
    header := none, body := { classList := [], overflow := "" }, anchors := [],
    revealElements := [], sections := [], formInputs := [], parents := [],
    headStyles := [] }

/-- The sample document with a second nav link that also points to `#home`. -/
def twinLinkDocument : Document :=
  { sampleDocument with
    navLinks :=
      [{ href := some "#home", classList := ["navLink"] },
       { href := some "#about", classList := ["navLink"] },
       { href := some "#home", classList := ["navLink"] }],
    anchors :=
      [{ href := "#home", navLink := some 0 }, { href := "#about", navLink := some 1 },
       { href := "#home", navLink := some 2 }] }

/-! ## Facts about `classList` and `localStorage` -/

theorem ClassList.mem_add (cl : List String) (t x : String) :
    x ∈ ClassList.add cl t ↔ x ∈ cl ∨ x = t := by
  unfold ClassList.add
  split
  · constructor
    · intro h; exact Or.inl h
    · rintro (h | h)
      · exact h
      · subst h; assumption
  · simp

theorem ClassList.mem_remove (cl : List String) (t x : String) :
    x ∈ ClassList.remove cl t ↔ x ∈ cl ∧ x ≠ t := by
  simp [ClassList.remove]

theorem ClassList.toggle_snd (cl : List String) (t : String) :
    (ClassList.toggle cl t).2 = true ↔ t ∉ cl := by
  unfold ClassList.toggle
  split <;> simp_all

theorem ClassList.mem_toggle_self (cl : List String) (t : String) :
    t ∈ (ClassList.toggle cl t).1 ↔ t ∉ cl := by
  unfold ClassList.toggle
  split <;> simp_all [ClassList.mem_add, ClassList.mem_remove]

theorem ClassList.toggle_snd_eq (cl : List String) (t : String) :
    (ClassList.toggle cl t).2 = decide (t ∈ (ClassList.toggle cl t).1) := by
  unfold ClassList.toggle
  split <;> simp_all [ClassList.mem_add, ClassList.mem_remove]

theorem getItem_setItem (st : Storage) (k v : String) :
    getItem (setItem st k v) k = some v := by
  simp [getItem, setItem, List.lookup]

/-! ## Mobile navigation -/

/-- C5: with the hamburger control and the nav list present, one click on the
control flips the membership of `active` in the class list of the nav list,
sets `aria-expanded` to the string of the new membership (`true` when open,
`false` when closed) and sets `body.style.overflow` to `hidden` when the menu
is now open and to the empty string otherwise; the document listener that runs
for the same click (its target lies inside the control) changes nothing. -/
theorem mobileToggle_click_toggles (s : Page) (mt : MobileToggle) (nl : NavList)
    (hmt : s.doc.mobileToggle = some mt) (hnl : s.doc.navList = some nl) :
    ∃ mt1 nl1,
      (mobileToggleClick s).doc.mobileToggle = some mt1 ∧
      (mobileToggleClick s).doc.navList = some nl1 ∧
      ("active" ∈ nl1.classList ↔ "active" ∉ nl.classList) ∧
      mt1.ariaExpanded = some (if "active" ∈ nl1.classList then "true" else "false") ∧
      (mobileToggleClick s).doc.body.overflow
        = (if "active" ∈ nl1.classList then "hidden" else "") ∧
      ∀ inNavList, documentClick true inNavList (mobileToggleClick s) = mobileToggleClick s := by
  refine ⟨{ classList := (ClassList.toggle mt.classList "active").1,
            ariaExpanded := some (boolString (ClassList.toggle nl.classList "active").2) },
          { classList := (ClassList.toggle nl.classList "active").1 }, ?_, ?_, ?_, ?_, ?_, ?_⟩
  · simp only [mobileToggleClick, hmt, hnl]
  · simp only [mobileToggleClick, hmt, hnl]
  · exact ClassList.mem_toggle_self _ _
  · simp only [ClassList.toggle_snd_eq, boolString, decide_eq_true_eq]
  · simp only [mobileToggleClick, hmt, hnl, ClassList.toggle_snd_eq, decide_eq_true_eq]
  · intro inNavList
    simp [documentClick, mobileToggleClick, hmt, hnl]


/-- C6: with the hamburger control and the nav list present, in every state a
click on a nav link closes the menu (afterwards neither the nav list nor the
control carries `active`, `aria-expanded` is `false` and `body.style.overflow`
is empty), and the document listener that runs for the same click leaves it
closed; a click outside both the control and the nav list closes the menu in
the same way; a click inside the control or inside the nav list is left alone
by the document listener. -/
theorem menu_closes_on_link_and_outside (s : Page) (mt : MobileToggle) (nl : NavList)
    (hmt : s.doc.mobileToggle = some mt) (hnl : s.doc.navList = some nl) :
    (∃ mt1 nl1,
      (navLinkClick s).doc.mobileToggle = some mt1 ∧
      (navLinkClick s).doc.navList = some nl1 ∧
      "active" ∉ nl1.classList ∧ "active" ∉ mt1.classList ∧
      mt1.ariaExpanded = some "false" ∧ (navLinkClick s).doc.body.overflow = "") ∧
    (∀ inToggle inNavList,
      documentClick inToggle inNavList (navLinkClick s) = navLinkClick s) ∧
    (∃ mt1 nl1,
      (documentClick false false s).doc.mobileToggle = some mt1 ∧
      (documentClick false false s).doc.navList = some nl1 ∧
      "active" ∉ nl1.classList ∧ "active" ∉ mt1.classList ∧
      mt1.ariaExpanded = some "false" ∧ (documentClick false false s).doc.body.overflow = "") ∧
    (∀ inToggle inNavList, inToggle = true ∨ inNavList = true →
      documentClick inToggle inNavList s = s) := by
  refine ⟨⟨{ classList := ClassList.remove mt.classList "active", ariaExpanded := some "false" },
           { classList := ClassList.remove nl.classList "active" }, ?_⟩, ?_,
          ⟨{ classList := ClassList.remove mt.classList "active", ariaExpanded := some "false" },
           { classList := ClassList.remove nl.classList "active" }, ?_⟩, ?_⟩
  · simp [navLinkClick, hmt, hnl, ClassList.mem_remove]
  · intro inToggle inNavList
    simp only [documentClick, navLinkClick, hmt, hnl]
    split
    · simp [ClassList.remove, List.filter_filter]
    · rfl
  · simp [documentClick, hmt, hnl, ClassList.mem_remove]
  · intro inToggle inNavList h
    simp only [documentClick, hmt, hnl]
    rcases h with h | h <;> simp [h]


/-- C5 on the sample page, where the menu is closed. -/
theorem mobileToggle_click_toggles_witness :
    (samplePage.doc.mobileToggle
        = some { classList := ["mobileToggle"], ariaExpanded := some "false" } ∧
      samplePage.doc.navList = some { classList := ["navList"] }) ∧
    ∃ mt1 nl1,
      (mobileToggleClick samplePage).doc.mobileToggle = some mt1 ∧
      (mobileToggleClick samplePage).doc.navList = some nl1 ∧
      ("active" ∈ nl1.classList ↔ "active" ∉ (["navList"] : List String)) ∧
      mt1.ariaExpanded = some (if "active" ∈ nl1.classList then "true" else "false") ∧
      (mobileToggleClick samplePage).doc.body.overflow
        = (if "active" ∈ nl1.classList then "hidden" else "") ∧
      ∀ inNavList,
        documentClick true inNavList (mobileToggleClick samplePage)
          = mobileToggleClick samplePage :=
  ⟨⟨rfl, rfl⟩,
   mobileToggle_click_toggles samplePage
     { classList := ["mobileToggle"], ariaExpanded := some "false" }
     { classList := ["navList"] } rfl rfl⟩

/-- C6 on the sample page after one click on the hamburger control, where the
menu is open. -/
theorem menu_closes_on_link_and_outside_witness :
    ((mobileToggleClick samplePage).doc.mobileToggle
        = some { classList := ["mobileToggle", "active"], ariaExpanded := some "true" } ∧
      (mobileToggleClick samplePage).doc.navList
        = some { classList := ["navList", "active"] }) ∧
    (∃ mt1 nl1,
      (navLinkClick (mobileToggleClick samplePage)).doc.mobileToggle = some mt1 ∧
      (navLinkClick (mobileToggleClick samplePage)).doc.navList = some nl1 ∧
      "active" ∉ nl1.classList ∧ "active" ∉ mt1.classList ∧
      mt1.ariaExpanded = some "false" ∧
      (navLinkClick (mobileToggleClick samplePage)).doc.body.overflow = "") ∧
    (∀ inToggle inNavList,
      documentClick inToggle inNavList (navLinkClick (mobileToggleClick samplePage))
        = navLinkClick (mobileToggleClick samplePage)) ∧
    (∃ mt1 nl1,
      (documentClick false false (mobileToggleClick samplePage)).doc.mobileToggle = some mt1 ∧
      (documentClick false false (mobileToggleClick samplePage)).doc.navList = some nl1 ∧
      "active" ∉ nl1.classList ∧ "active" ∉ mt1.classList ∧
      mt1.ariaExpanded = some "false" ∧
      (documentClick false false (mobileToggleClick samplePage)).doc.body.overflow = "") ∧
    (∀ inToggle inNavList, inToggle = true ∨ inNavList = true →
      documentClick inToggle inNavList (mobileToggleClick samplePage)
        = mobileToggleClick samplePage) :=
  ⟨⟨rfl, rfl⟩,
   menu_closes_on_link_and_outside (mobileToggleClick samplePage)
     { classList := ["mobileToggle", "active"], ariaExpanded := some "true" }
     { classList := ["navList", "active"] } rfl rfl⟩


/-! ## Theme toggle -/

/-- C1 (amended): with the theme toggle present, in every state one click
flips whether the body carries `light-theme` and stores under
`logiclens-theme` the value `light` if the body now carries the class and
`dark` otherwise; two consecutive clicks leave the membership as it was and
leave stored the value that matches it (`light` if the body carries the class,
`dark` otherwise), which is the value stored before the two clicks whenever a
click had already happened before them. -/
theorem themeToggle_click_flips_and_stores (s : Page) (tt : ThemeToggle)
    (htt : s.doc.themeToggle = some tt) :
    ("light-theme" ∈ (themeToggleClick s).doc.body.classList
      ↔ "light-theme" ∉ s.doc.body.classList) ∧
    getItem (themeToggleClick s).localStorage THEME_KEY
      = some (if "light-theme" ∈ (themeToggleClick s).doc.body.classList
          then "light" else "dark") ∧
    ("light-theme" ∈ (themeToggleClick (themeToggleClick s)).doc.body.classList
      ↔ "light-theme" ∈ s.doc.body.classList) ∧
    getItem (themeToggleClick (themeToggleClick s)).localStorage THEME_KEY
      = some (if "light-theme" ∈ s.doc.body.classList then "light" else "dark") ∧
    getItem (themeToggleClick (themeToggleClick (themeToggleClick s))).localStorage THEME_KEY
      = getItem (themeToggleClick s).localStorage THEME_KEY := by
  have one : ∀ (p : Page) (t : ThemeToggle), p.doc.themeToggle = some t →
      (∃ t1, (themeToggleClick p).doc.themeToggle = some t1) ∧
      ("light-theme" ∈ (themeToggleClick p).doc.body.classList
        ↔ "light-theme" ∉ p.doc.body.classList) ∧
      getItem (themeToggleClick p).localStorage THEME_KEY
        = some (if "light-theme" ∈ (themeToggleClick p).doc.body.classList
            then "light" else "dark") := by
    intro p t hp
    refine ⟨?_, ?_, ?_⟩
    · simp [themeToggleClick, hp]
    · simp only [themeToggleClick, hp]
      exact ClassList.mem_toggle_self _ _
    · simp only [themeToggleClick, hp, getItem_setItem, ClassList.toggle_snd_eq,
        decide_eq_true_eq]
  obtain ⟨⟨t1, h1⟩, f1, g1⟩ := one s tt htt
  obtain ⟨⟨t2, h2⟩, f2, g2⟩ := one _ t1 h1
  obtain ⟨_, f3, g3⟩ := one _ t2 h2
  have m2 : "light-theme" ∈ (themeToggleClick (themeToggleClick s)).doc.body.classList
      ↔ "light-theme" ∈ s.doc.body.classList := by
    rw [f2, f1, not_not]
  refine ⟨f1, g1, m2, ?_, ?_⟩
  · rw [g2]
    by_cases h : "light-theme" ∈ s.doc.body.classList <;> simp [m2, h]
  · rw [g3, g1]
    by_cases h : "light-theme" ∈ (themeToggleClick s).doc.body.classList <;>
      simp [f3, f2, h]

/-- C1 (amended) on the sample page. -/
theorem themeToggle_click_flips_and_stores_witness :
    samplePage.doc.themeToggle
      = some { icon := some { classList := ["fas", "fa-moon"] }, transform := "" } ∧
    ("light-theme" ∈ (themeToggleClick samplePage).doc.body.classList
      ↔ "light-theme" ∉ samplePage.doc.body.classList) ∧
    getItem (themeToggleClick samplePage).localStorage THEME_KEY
      = some (if "light-theme" ∈ (themeToggleClick samplePage).doc.body.classList
          then "light" else "dark") ∧
    ("light-theme" ∈ (themeToggleClick (themeToggleClick samplePage)).doc.body.classList
      ↔ "light-theme" ∈ samplePage.doc.body.classList) ∧
    getItem (themeToggleClick (themeToggleClick samplePage)).localStorage THEME_KEY
      = some (if "light-theme" ∈ samplePage.doc.body.classList then "light" else "dark") ∧
    getItem (themeToggleClick (themeToggleClick (themeToggleClick samplePage))).localStorage
        THEME_KEY
      = getItem (themeToggleClick samplePage).localStorage THEME_KEY :=
  ⟨rfl, themeToggle_click_flips_and_stores samplePage
    { icon := some { classList := ["fas", "fa-moon"] }, transform := "" } rfl⟩

/-- C1 (as stated) fails: a first-time visitor has nothing stored, the click
listener is registered, and after two clicks on the theme toggle the value
`dark` is stored. -/
theorem themeToggle_two_clicks_change_storage :
    Listener.themeToggleClick ∈ samplePage.listeners ∧
    getItem samplePage.localStorage THEME_KEY = none ∧
    getItem (step (step samplePage Event.themeToggleClick) Event.themeToggleClick).localStorage
      THEME_KEY = some "dark" ∧
    getItem (step (step samplePage Event.themeToggleClick) Event.themeToggleClick).localStorage
      THEME_KEY ≠ getItem samplePage.localStorage THEME_KEY := by
  decide


theorem initMobileNavigation_doc (s : Page) :
    (initMobileNavigation s).doc = s.doc ∧
    (initMobileNavigation s).localStorage = s.localStorage := by
  unfold initMobileNavigation
  split <;> exact ⟨rfl, rfl⟩

theorem initHeaderEffects_doc (s : Page) : (initHeaderEffects s).doc = s.doc := by
  unfold initHeaderEffects
  split <;> rfl

theorem initThemeToggle_doc_congr (prefersDark : Bool) (s s1 : Page)
    (hd : s1.doc = s.doc) (hs : s1.localStorage = s.localStorage) :
    (initThemeToggle prefersDark s1).doc = (initThemeToggle prefersDark s).doc := by
  simp only [initThemeToggle, hd, hs]
  split
  · exact hd
  · split <;> simp [hd]

/-- The body and the theme toggle after start-up are those left by
`initThemeToggle`. -/
theorem DOMContentLoaded_theme (prefersDark : Bool) (doc : Document) (storage : Storage) :
    (DOMContentLoaded prefersDark doc storage).doc.body
      = (initThemeToggle prefersDark (Page.atLoad doc storage)).doc.body ∧
    (DOMContentLoaded prefersDark doc storage).doc.themeToggle
      = (initThemeToggle prefersDark (Page.atLoad doc storage)).doc.themeToggle := by
  have h := initThemeToggle_doc_congr prefersDark (Page.atLoad doc storage)
    (initMobileNavigation (Page.atLoad doc storage))
    (initMobileNavigation_doc _).1 (initMobileNavigation_doc _).2
  simp only [DOMContentLoaded, initFormAnimations, initActiveNavOnScroll, initScrollReveal,
    initSmoothScrolling, initHeaderEffects_doc, h, and_self]

/-- C2 (amended): with the theme toggle present, start-up decides the mode by
precedence, stored preference first and system preference second.  When `dark`
is stored, whatever the system preference, start-up does not add
`light-theme`: the body carries it afterwards exactly when the markup already
carried it, so a body without the class before start-up is without it after.
When nothing is stored and the system preference is light, the body carries
`light-theme` afterwards and the icon of the toggle, when there is one, has
`fa-sun` and not `fa-moon`.  When neither the stored value nor the system
preference indicates light, start-up again does not add the class.  A stored
`light` adds it whatever the system preference. -/
theorem initThemeToggle_precedence (prefersDark : Bool) (doc : Document) (storage : Storage)
    (tt : ThemeToggle) (htt : doc.themeToggle = some tt) :
    (getItem storage THEME_KEY = some "dark" →
      ("light-theme" ∈ (DOMContentLoaded prefersDark doc storage).doc.body.classList
        ↔ "light-theme" ∈ doc.body.classList)) ∧
    (getItem storage THEME_KEY = none → prefersDark = false →
      "light-theme" ∈ (DOMContentLoaded prefersDark doc storage).doc.body.classList ∧
      ∀ icon, tt.icon = some icon → ∃ tt1 icon1,
        (DOMContentLoaded prefersDark doc storage).doc.themeToggle = some tt1 ∧
        tt1.icon = some icon1 ∧
        "fa-sun" ∈ icon1.classList ∧ "fa-moon" ∉ icon1.classList) ∧
    (getItem storage THEME_KEY ≠ some "light" → prefersDark = true →
      ("light-theme" ∈ (DOMContentLoaded prefersDark doc storage).doc.body.classList
        ↔ "light-theme" ∈ doc.body.classList)) ∧
    (getItem storage THEME_KEY = some "light" →
      "light-theme" ∈ (DOMContentLoaded prefersDark doc storage).doc.body.classList) := by
  obtain ⟨hb, ht⟩ := DOMContentLoaded_theme prefersDark doc storage
  rw [hb, ht]
  refine ⟨?_, ?_, ?_, ?_⟩
  · intro hs
    simp [initThemeToggle, Page.atLoad, htt, hs, truthy]
  · intro hs hp
    refine ⟨?_, ?_⟩
    · simp [initThemeToggle, Page.atLoad, htt, hs, hp, truthy, ClassList.mem_add]
    · intro icon hi
      refine ⟨{ tt with icon := some icon.sun }, icon.sun, ?_, rfl, ?_, ?_⟩
      · simp [initThemeToggle, Page.atLoad, htt, hs, hp, truthy, hi]
      · simp [Icon.sun, ClassList.mem_add]
      · simp [Icon.sun, ClassList.mem_add, ClassList.mem_remove]
  · intro hs hp
    simp [initThemeToggle, Page.atLoad, htt, hs, hp]
  · intro hs
    simp [initThemeToggle, Page.atLoad, htt, hs, ClassList.mem_add]


/-- C2 (amended) on the sample document: a stored `dark` with a light system
preference, nothing stored with a light system preference, nothing stored with
a dark system preference, and a stored `light` with a dark system preference. -/
theorem initThemeToggle_precedence_witness :
    "light-theme" ∉
      (DOMContentLoaded false sampleDocument [("logiclens-theme", "dark")]).doc.body.classList ∧
    ("light-theme" ∈ (DOMContentLoaded false sampleDocument []).doc.body.classList ∧
      ∀ icon, (some { classList := ["fas", "fa-moon"] } : Option Icon) = some icon →
        ∃ tt1 icon1,
          (DOMContentLoaded false sampleDocument []).doc.themeToggle = some tt1 ∧
          tt1.icon = some icon1 ∧
          "fa-sun" ∈ icon1.classList ∧ "fa-moon" ∉ icon1.classList) ∧
    "light-theme" ∉ (DOMContentLoaded true sampleDocument []).doc.body.classList ∧
    "light-theme" ∈
      (DOMContentLoaded true sampleDocument [("logiclens-theme", "light")]).doc.body.classList :=
  ⟨fun h => absurd
      (((initThemeToggle_precedence false sampleDocument [("logiclens-theme", "dark")]
        { icon := some { classList := ["fas", "fa-moon"] }, transform := "" } rfl).1 rfl).mp h)
      (by decide),
   (initThemeToggle_precedence false sampleDocument []
      { icon := some { classList := ["fas", "fa-moon"] }, transform := "" } rfl).2.1 rfl rfl,
   fun h => absurd
      (((initThemeToggle_precedence true sampleDocument []
        { icon := some { classList := ["fas", "fa-moon"] }, transform := "" } rfl).2.2.1
          (by decide) rfl).mp h)
      (by decide),
   (initThemeToggle_precedence true sampleDocument [("logiclens-theme", "light")]
      { icon := some { classList := ["fas", "fa-moon"] }, transform := "" } rfl).2.2.2 rfl⟩

/-- C2 (as stated) fails: when the markup of the body already carries
`light-theme`, a stored `dark` does not take it away; the body still carries
the class after start-up, for either system preference. -/
theorem initThemeToggle_keeps_markup_class :
    getItem [("logiclens-theme", "dark")] THEME_KEY = some "dark" ∧
    lightMarkupDocument.themeToggle
      = some { icon := some { classList := ["fas", "fa-moon"] }, transform := "" } ∧
    "light-theme" ∈
      (DOMContentLoaded true lightMarkupDocument
        [("logiclens-theme", "dark")]).doc.body.classList ∧
    "light-theme" ∈
      (DOMContentLoaded false lightMarkupDocument
        [("logiclens-theme", "dark")]).doc.body.classList := by
  decide


/-! ## Smooth scrolling -/

theorem updateHeader_iterate_frame (scrollY : ℚ) (n : Nat) (s : Page) :
    ((updateHeader scrollY)^[n] s).headerOffset = s.headerOffset ∧
    ((updateHeader scrollY)^[n] s).pendingFrames = s.pendingFrames ∧
    ((updateHeader scrollY)^[n] s).doc.revealElements = s.doc.revealElements ∧
    ((updateHeader scrollY)^[n] s).revealObserved = s.revealObserved := by
  induction n generalizing s with
  | zero => simp
  | succ n ih =>
    rw [Function.iterate_succ_apply]
    obtain ⟨h1, h2, h3, h4⟩ := ih (updateHeader scrollY s)
    rw [h1, h2, h3, h4]
    unfold updateHeader
    split <;> simp

theorem revealCallback_frame (entries : List RevealEntry) (s : Page) :
    (revealCallback entries s).headerOffset = s.headerOffset ∧
    (revealCallback entries s).pendingFrames = s.pendingFrames ∧
    (revealCallback entries s).ticking = s.ticking := by
  induction entries generalizing s with
  | nil => simp [revealCallback]
  | cons e es ih =>
    simp only [revealCallback, List.foldl_cons] at ih ⊢
    obtain ⟨h1, h2, h3⟩ := ih (revealEntry s e)
    rw [h1, h2, h3]
    unfold revealEntry
    split <;> simp

theorem sectionCallback_frame (entries : List SectionEntry) (s : Page) :
    (sectionCallback entries s).headerOffset = s.headerOffset ∧
    (sectionCallback entries s).pendingFrames = s.pendingFrames ∧
    (sectionCallback entries s).ticking = s.ticking ∧
    (sectionCallback entries s).doc.revealElements = s.doc.revealElements ∧
    (sectionCallback entries s).revealObserved = s.revealObserved := by
  induction entries generalizing s with
  | nil => simp [sectionCallback]
  | cons e es ih =>
    simp only [sectionCallback, List.foldl_cons] at ih ⊢
    obtain ⟨h1, h2, h3, h4, h5⟩ := ih (sectionEntry s e)
    rw [h1, h2, h3, h4, h5]
    unfold sectionEntry
    split <;> simp

theorem step_headerOffset (s : Page) (ev : Event) :
    (step s ev).headerOffset = s.headerOffset := by
  cases ev with
  | mobileToggleClick => simp only [step, mobileToggleClick]; split <;> (try split) <;> rfl
  | navLinkClick i => simp only [step, navLinkClick]; split <;> (try split) <;> rfl
  | documentClick a b =>
    simp only [step, documentClick]; split <;> (try split) <;> (try split) <;> rfl
  | themeToggleClick => simp only [step, themeToggleClick]; split <;> (try split) <;> rfl
  | timeout => simp only [step, themeTimeout]; split <;> (try split) <;> rfl
  | anchorClick v a =>
    simp only [step, anchorClick]
    split
    · split
      · rename_i o h
        split at h
        · cases h; rfl
        · split at h
          · cases h
          · cases h; rfl
          · cases h; rfl
      · rfl
    · rfl
  | windowScroll => simp only [step, windowScroll]; split <;> (try split) <;> rfl
  | animationFrame y =>
    simp only [step, animationFrame]
    exact (updateHeader_iterate_frame y _ _).1
  | revealCallback es => exact (revealCallback_frame _ s).1
  | sectionCallback es => exact (sectionCallback_frame _ s).1
  | inputFocus k =>
    simp only [step, inputFocus]
    split
    · split
      · rename_i o h
        split at h
        · cases h; rfl
        · split at h
          · cases h
          · cases h; rfl
      · rfl
    · rfl
  | inputBlur k =>
    simp only [step, inputBlur]
    split
    · split
      · rename_i o h
        split at h
        · cases h; rfl
        · split at h
          · cases h
          · cases h; rfl
      · rfl
    · rfl
  | headerResize h => simp only [step]; split <;> rfl

theorem run_headerOffset (s : Page) (events : List Event) :
    (run s events).headerOffset = s.headerOffset := by
  induction events generalizing s with
  | nil => rfl
  | cons ev evs ih =>
    simp only [run, List.foldl_cons] at ih ⊢
    rw [ih, step_headerOffset]

theorem DOMContentLoaded_headerOffset (prefersDark : Bool) (doc : Document)
    (storage : Storage) (hd : Header) (hh : doc.header = some hd) :
    (DOMContentLoaded prefersDark doc storage).headerOffset = hd.offsetHeight := by
  have h := initThemeToggle_doc_congr prefersDark (Page.atLoad doc storage)
    (initMobileNavigation (Page.atLoad doc storage))
    (initMobileNavigation_doc _).1 (initMobileNavigation_doc _).2
  have hdr : (initThemeToggle prefersDark (Page.atLoad doc storage)).doc.header = some hd := by
    simp only [initThemeToggle, Page.atLoad]
    split
    · exact hh
    · split <;> simp [hh]
  have e : (initHeaderEffects (initSmoothScrolling (initThemeToggle prefersDark
      (initMobileNavigation (Page.atLoad doc storage))))).headerOffset = hd.offsetHeight := by
    unfold initHeaderEffects
    split <;> simp [initSmoothScrolling, h, hdr]
  simpa [DOMContentLoaded, initFormAnimations, initActiveNavOnScroll, initScrollReveal] using e


theorem isNameStart_not_digit (c : Char) (h : isNameStart c = true) :
    c.isDigit = false ∧ isNameChar c = true := by
  unfold isNameStart at h
  rcases Bool.or_eq_true _ _ |>.mp h with ha | hu
  · refine ⟨?_, by simp [isNameChar, Char.isAlphanum, ha]⟩
    simp only [Char.isAlpha, Char.isUpper, Char.isLower, Char.isDigit, Bool.or_eq_true,
      Bool.and_eq_true, decide_eq_true_eq, Bool.and_eq_false_imp,
      decide_eq_false_iff_not] at *
    intro _
    simp only [GE.ge, UInt32.le_def, BitVec.le_def] at *
    have e1 : (65 : UInt32).toBitVec.toNat = 65 := by decide
    have e2 : (90 : UInt32).toBitVec.toNat = 90 := by decide
    have e3 : (97 : UInt32).toBitVec.toNat = 97 := by decide
    have e4 : (122 : UInt32).toBitVec.toNat = 122 := by decide
    have e5 : (57 : UInt32).toBitVec.toNat = 57 := by decide
    rw [e5]
    rw [e1, e2, e3, e4] at ha
    omega
  · have hc : c = '_' := by simpa using hu
    subst hc
    exact ⟨by decide, by decide⟩

/-- An href made of `#` and an identifier that is the id of an element
resolves to the first element with that id. -/
theorem querySelector_id (v : View) (c : Char) (cs : List Char)
    (hc : isNameStart c = true) (hcs : cs.all isNameChar = true)
    (hmem : String.mk (c :: cs) ∈ v.ids) :
    ∃ e, querySelector v ("#" ++ String.mk (c :: cs)) = QueryResult.found e ∧
      v.ids[e]? = some (String.mk (c :: cs)) := by
  obtain ⟨hd, hn⟩ := isNameStart_not_digit c hc
  have hl : ("#" ++ String.mk (c :: cs)).toList = '#' :: c :: cs := by
    simp [String.toList]
  have hall : (c :: cs).all isNameChar = true := by
    simp only [List.all_cons, hn, hcs, Bool.and_self]
  cases hidx : v.ids.indexOf? (String.mk (c :: cs)) with
  | none =>
    have := List.findIdx?_eq_none_iff.mp hidx _ hmem
    simp at this
  | some e =>
    refine ⟨e, ?_, ?_⟩
    · simp only [querySelector, hl, hall, hd, hc, hidx, if_true]
      simp
    · have h1 := List.findIdx?_of_eq_some hidx
      cases hg : v.ids[e]? with
      | none => simp [hg] at h1
      | some a =>
        simp only [hg, beq_iff_eq] at h1
        rw [h1]

/-- C3 (amended): after start-up of a document with a header, and after any
sequence of events (changes of the rendered height of the header included), a
click on an anchor whose href is not the bare `#` and for which
`document.querySelector(href)` resolves to an element calls `preventDefault`
and adds exactly one `window.scrollTo` call, with behavior `smooth` and with
`top` the value that JavaScript computes for
`getBoundingClientRect().top + pageYOffset - headerOffset + 70` from left to
right, where `headerOffset` is `offsetHeight` of the header as it was read at
start-up.  The query resolves whenever the href is `#` followed by an
identifier that is the id of an element. -/
theorem anchorClick_scrolls_to_target (prefersDark : Bool) (doc : Document)
    (storage : Storage) (events : List Event) (hd : Header) (v : View) (a : Anchor)
    (target : Nat) (hh : doc.header = some hd) (ha : a.href ≠ "#")
    (ht : querySelector v a.href = QueryResult.found target) :
    (∃ page,
      anchorClick v a (run (DOMContentLoaded prefersDark doc storage) events)
        = Except.ok { page := page, defaultPrevented := true } ∧
      page.scrollToCalls
        = (run (DOMContentLoaded prefersDark doc storage) events).scrollToCalls ++
          [{ top := v.add (v.sub (v.add (v.rectTop target) v.pageYOffset) hd.offsetHeight) 70,
             behavior := "smooth" }]) ∧
    (∀ (c : Char) (cs : List Char), isNameStart c = true → cs.all isNameChar = true →
      String.mk (c :: cs) ∈ v.ids →
      ∃ e, querySelector v ("#" ++ String.mk (c :: cs)) = QueryResult.found e ∧
        v.ids[e]? = some (String.mk (c :: cs))) := by
  have ho : (run (DOMContentLoaded prefersDark doc storage) events).headerOffset
      = hd.offsetHeight := by
    rw [run_headerOffset, DOMContentLoaded_headerOffset prefersDark doc storage hd hh]
  refine ⟨?_, fun c cs hc hcs hm => querySelector_id v c cs hc hcs hm⟩
  simp only [anchorClick, ha, ht, if_false, ho]
  exact ⟨_, rfl, rfl⟩

/-- C3 (amended) on the sample page after a scroll event and after the header
has grown from 80 to 120 pixels, for the nav link to `#about`: the offset is
still computed with 80. -/
theorem anchorClick_scrolls_to_target_witness :
    (sampleDocument.header = some { classList := ["header"], offsetHeight := 80 } ∧
      ("#about" : String) ≠ "#" ∧
      querySelector sampleView "#about" = QueryResult.found 1) ∧
    ∃ page,
      anchorClick sampleView { href := "#about", navLink := some 1 }
          (run (DOMContentLoaded true sampleDocument [])
            [Event.windowScroll, Event.headerResize 120])
        = Except.ok { page := page, defaultPrevented := true } ∧
      page.scrollToCalls
        = (run (DOMContentLoaded true sampleDocument [])
            [Event.windowScroll, Event.headerResize 120]).scrollToCalls ++
          [{ top := sampleView.add (sampleView.sub
                (sampleView.add (sampleView.rectTop 1) sampleView.pageYOffset)
                ({ classList := ["header"], offsetHeight := 80 } : Header).offsetHeight) 70,
             behavior := "smooth" }] :=
  ⟨⟨rfl, by decide, by decide⟩,
   (anchorClick_scrolls_to_target true sampleDocument []
     [Event.windowScroll, Event.headerResize 120]
     { classList := ["header"], offsetHeight := 80 } sampleView
     { href := "#about", navLink := some 1 } 1 rfl (by decide) (by decide)).1⟩

/-- C3 (as stated) fails in two ways.  An element with the id `1` exists and
the sample page has an anchor with href `#1`, yet the click listener of that
anchor ends with the `SyntaxError` of `document.querySelector`, before
`preventDefault` and `window.scrollTo`.  And after the header has grown from 80
to 120 pixels a click on the link to `#about` (600 pixels below the top, page
scrolled by 120) scrolls to 710, computed with the 80 read at start-up, where
the rendered height gives 670. -/
theorem anchorClick_digit_id_and_stale_height :
    ("1" ∈ digitIdView.ids ∧
      Listener.anchorClick { href := "#1", navLink := none } ∈ samplePage.listeners ∧
      anchorClick digitIdView { href := "#1", navLink := none } samplePage
        = Except.error Exception.syntaxError) ∧
    ((step samplePage (Event.headerResize 120)).doc.header
        = some { classList := ["header"], offsetHeight := 120 } ∧
      (∃ page,
        anchorClick sampleView { href := "#about", navLink := some 1 }
            (step samplePage (Event.headerResize 120))
          = Except.ok { page := page, defaultPrevented := true } ∧
        page.scrollToCalls = [{ top := 710, behavior := "smooth" }]) ∧
      sampleView.add (sampleView.sub
          (sampleView.add (sampleView.rectTop 1) sampleView.pageYOffset) 120) 70 = 670) := by
  have h1 : (step samplePage (Event.headerResize 120)).scrollToCalls = [] := rfl
  have h2 : (step samplePage (Event.headerResize 120)).headerOffset = 80 := rfl
  refine ⟨⟨by decide, by decide, rfl⟩, rfl, ⟨_, rfl, ?_⟩, ?_⟩
  · dsimp only
    rw [h1, h2]
    norm_num [sampleView]
  · norm_num [sampleView]

/-- C4 (amended): in every state, a click on an anchor whose href is the bare
`#`, or whose href is a selector that `document.querySelector` accepts and that
matches no element, is a silent no-op: the listener returns normally, the page
is unchanged (no `window.scrollTo`, the `active` class of every nav link as it
was) and `preventDefault` is not called. -/
theorem anchorClick_no_target_noop (s : Page) (v : View) (a : Anchor)
    (h : a.href = "#" ∨ querySelector v a.href = QueryResult.null) :
    anchorClick v a s = Except.ok { page := s, defaultPrevented := false } ∧
    (Listener.anchorClick a ∈ s.listeners → step s (Event.anchorClick v a) = s) := by
  have e : anchorClick v a s = Except.ok { page := s, defaultPrevented := false } := by
    unfold anchorClick
    rcases h with h | h
    · simp [h]
    · by_cases hb : a.href = "#"
      · simp [hb]
      · simp [hb, h]
  refine ⟨e, ?_⟩
  intro hl
  simp [step, hl, e]

/-- C4 (amended) on the sample page, for the bare `#` and for `#contact`, an id
that no element has. -/
theorem anchorClick_no_target_noop_witness :
    (("#" : String) = "#" ∨ querySelector sampleView "#" = QueryResult.null) ∧
    (("#contact" : String) = "#" ∨ querySelector sampleView "#contact" = QueryResult.null) ∧
    (anchorClick sampleView { href := "#", navLink := none } samplePage
        = Except.ok { page := samplePage, defaultPrevented := false } ∧
      (Listener.anchorClick { href := "#", navLink := none } ∈ samplePage.listeners →
        step samplePage (Event.anchorClick sampleView { href := "#", navLink := none })
          = samplePage)) ∧
    (anchorClick sampleView { href := "#contact", navLink := none } samplePage
        = Except.ok { page := samplePage, defaultPrevented := false } ∧
      (Listener.anchorClick { href := "#contact", navLink := none } ∈ samplePage.listeners →
        step samplePage (Event.anchorClick sampleView { href := "#contact", navLink := none })
          = samplePage)) :=
  ⟨Or.inl rfl, Or.inr (by decide),
   anchorClick_no_target_noop samplePage sampleView { href := "#", navLink := none }
     (Or.inl rfl),
   anchorClick_no_target_noop samplePage sampleView { href := "#contact", navLink := none }
     (Or.inr (by decide))⟩

/-- C4 (as stated) fails: the sample page has an anchor with href `#1`, no
element has the id `1`, and the click listener of that anchor ends with a
`SyntaxError` raised by `document.querySelector`. -/
theorem anchorClick_invalid_selector_throws :
    Listener.anchorClick { href := "#1", navLink := none } ∈ samplePage.listeners ∧
    "1" ∉ sampleView.ids ∧
    querySelector sampleView "#1" = QueryResult.syntaxError ∧
    anchorClick sampleView { href := "#1", navLink := none } samplePage
      = Except.error Exception.syntaxError := by
  refine ⟨by decide, by decide, by decide, ?_⟩
  rfl


/-! ## Events that leave a part of the page alone -/

/-- Every event other than a scroll or an animation frame leaves `ticking` and
the queued frame callbacks alone; every event other than an animation frame
and a change of layout leaves the header alone; every event other than a
reveal callback leaves the reveal elements and the targets of the reveal
observer alone. -/
theorem step_frame (s : Page) (ev : Event) :
    ((∃ y, ev = Event.animationFrame y) ∨ ev = Event.windowScroll ∨
      ((step s ev).pendingFrames = s.pendingFrames ∧ (step s ev).ticking = s.ticking)) ∧
    ((∃ y, ev = Event.animationFrame y) ∨ (∃ h, ev = Event.headerResize h) ∨
      (step s ev).doc.header = s.doc.header) ∧
    ((∃ es, ev = Event.revealCallback es) ∨
      ((step s ev).doc.revealElements = s.doc.revealElements ∧
        (step s ev).revealObserved = s.revealObserved)) := by
  cases ev with
  | mobileToggleClick =>
    refine ⟨Or.inr (Or.inr ?_), Or.inr (Or.inr ?_), Or.inr ?_⟩ <;>
      simp only [step, mobileToggleClick] <;> split <;> (try split) <;> simp
  | navLinkClick i =>
    refine ⟨Or.inr (Or.inr ?_), Or.inr (Or.inr ?_), Or.inr ?_⟩ <;>
      simp only [step, navLinkClick] <;> split <;> (try split) <;> simp
  | documentClick a b =>
    refine ⟨Or.inr (Or.inr ?_), Or.inr (Or.inr ?_), Or.inr ?_⟩ <;>
      simp only [step, documentClick] <;> split <;> (try split) <;> (try split) <;> simp
  | themeToggleClick =>
    refine ⟨Or.inr (Or.inr ?_), Or.inr (Or.inr ?_), Or.inr ?_⟩ <;>
      simp only [step, themeToggleClick] <;> split <;> (try split) <;> simp
  | timeout =>
    refine ⟨Or.inr (Or.inr ?_), Or.inr (Or.inr ?_), Or.inr ?_⟩ <;>
      simp only [step, themeTimeout] <;> split <;> (try split) <;> simp
  | anchorClick v a =>
    have key : ∀ o, anchorClick v a s = Except.ok o →
        o.page.pendingFrames = s.pendingFrames ∧ o.page.ticking = s.ticking ∧
        o.page.doc.header = s.doc.header ∧
        o.page.doc.revealElements = s.doc.revealElements ∧
        o.page.revealObserved = s.revealObserved := by
      intro o h
      by_cases hb : a.href = "#"
      · simp only [anchorClick, hb, if_true, Except.ok.injEq] at h
        subst h
        simp
      · rcases hq : querySelector v a.href with _ | _ | t <;>
          simp only [anchorClick, hb, hq, if_false, Except.ok.injEq, reduceCtorEq] at h <;>
          subst h <;> simp
    refine ⟨Or.inr (Or.inr ?_), Or.inr (Or.inr ?_), Or.inr ?_⟩ <;> simp only [step] <;> split <;>
      (try split) <;> (try simp) <;> rename_i o h <;> obtain ⟨h1, h2, h3, h4, h5⟩ := key o h <;>
      simp [h1, h2, h3, h4, h5]
  | windowScroll =>
    refine ⟨Or.inr (Or.inl rfl), Or.inr (Or.inr ?_), Or.inr ?_⟩ <;>
      simp only [step, windowScroll] <;> split <;> (try split) <;> simp
  | animationFrame y =>
    refine ⟨Or.inl ⟨y, rfl⟩, Or.inl ⟨y, rfl⟩, Or.inr ?_⟩
    simp only [step, animationFrame]
    exact ⟨(updateHeader_iterate_frame y _ _).2.2.1, (updateHeader_iterate_frame y _ _).2.2.2⟩
  | revealCallback es =>
    refine ⟨Or.inr (Or.inr ⟨(revealCallback_frame _ s).2.1, (revealCallback_frame _ s).2.2⟩),
      Or.inr (Or.inr ?_), Or.inl ⟨es, rfl⟩⟩
    simp only [step]
    generalize es.filter _ = l
    induction l generalizing s with
    | nil => rfl
    | cons e l ih =>
      simp only [revealCallback, List.foldl_cons] at ih ⊢
      rw [ih]
      unfold revealEntry
      split <;> rfl
  | sectionCallback es =>
    refine ⟨Or.inr (Or.inr ⟨(sectionCallback_frame _ s).2.1, (sectionCallback_frame _ s).2.2.1⟩),
      Or.inr (Or.inr ?_),
      Or.inr ⟨(sectionCallback_frame _ s).2.2.2.1, (sectionCallback_frame _ s).2.2.2.2⟩⟩
    simp only [step]
    generalize es.filter _ = l
    induction l generalizing s with
    | nil => rfl
    | cons e l ih =>
      simp only [sectionCallback, List.foldl_cons] at ih ⊢
      rw [ih]
      unfold sectionEntry
      split <;> rfl
  | inputFocus k =>
    have key : ∀ o, inputFocus k s = Except.ok o →
        o.pendingFrames = s.pendingFrames ∧ o.ticking = s.ticking ∧
        o.doc.header = s.doc.header ∧
        o.doc.revealElements = s.doc.revealElements ∧
        o.revealObserved = s.revealObserved := by
      intro o h
      unfold inputFocus at h
      split at h
      · cases h; simp
      · split at h
        · cases h
        · cases h; simp
    refine ⟨Or.inr (Or.inr ?_), Or.inr (Or.inr ?_), Or.inr ?_⟩ <;> simp only [step] <;> split <;>
      (try split) <;> (try simp) <;> rename_i o h <;> obtain ⟨h1, h2, h3, h4, h5⟩ := key o h <;>
      simp [h1, h2, h3, h4, h5]
  | inputBlur k =>
    have key : ∀ o, inputBlur k s = Except.ok o →
        o.pendingFrames = s.pendingFrames ∧ o.ticking = s.ticking ∧
        o.doc.header = s.doc.header ∧
        o.doc.revealElements = s.doc.revealElements ∧
        o.revealObserved = s.revealObserved := by
      intro o h
      unfold inputBlur at h
      split at h
      · cases h; simp
      · split at h
        · cases h
        · cases h; simp
    refine ⟨Or.inr (Or.inr ?_), Or.inr (Or.inr ?_), Or.inr ?_⟩ <;> simp only [step] <;> split <;>
      (try split) <;> (try simp) <;> rename_i o h <;> obtain ⟨h1, h2, h3, h4, h5⟩ := key o h <;>
      simp [h1, h2, h3, h4, h5]
  | headerResize h =>
    refine ⟨Or.inr (Or.inr ?_), Or.inr (Or.inl ⟨h, rfl⟩), Or.inr ?_⟩ <;>
      simp only [step] <;> split <;> simp

/-! ## Header scroll effects -/

theorem step_pending_invariant (s : Page) (ev : Event)
    (h : s.pendingFrames ≤ 1 ∧ (s.ticking = false → s.pendingFrames = 0)) :
    (step s ev).pendingFrames ≤ 1 ∧
    ((step s ev).ticking = false → (step s ev).pendingFrames = 0) := by
  rcases (step_frame s ev).1 with ⟨y, rfl⟩ | rfl | ⟨h1, h2⟩
  · have e : (step s (Event.animationFrame y)).pendingFrames = 0 := by
      simp only [step, animationFrame]
      exact (updateHeader_iterate_frame y _ _).2.1
    rw [e]
    exact ⟨Nat.zero_le _, fun _ => rfl⟩
  · simp only [step, windowScroll]
    split
    · cases ht : s.ticking
      · have h0 := h.2 ht
        simp [h0]
      · simpa [ht] using h
    · exact h
  · rw [h1, h2]
    exact h

theorem init_pendingFrames (prefersDark : Bool) (s : Page) :
    (initMobileNavigation s).pendingFrames = s.pendingFrames ∧
    (initThemeToggle prefersDark s).pendingFrames = s.pendingFrames ∧
    (initSmoothScrolling s).pendingFrames = s.pendingFrames ∧
    (initHeaderEffects s).pendingFrames = s.pendingFrames ∧
    (initScrollReveal s).pendingFrames = s.pendingFrames ∧
    (initActiveNavOnScroll s).pendingFrames = s.pendingFrames ∧
    (initFormAnimations s).pendingFrames = s.pendingFrames := by
  refine ⟨?_, ?_, rfl, ?_, rfl, rfl, rfl⟩
  · unfold initMobileNavigation
    split <;> rfl
  · unfold initThemeToggle
    split
    · rfl
    · simp only []
      split <;> rfl
  · unfold initHeaderEffects
    split <;> rfl

theorem DOMContentLoaded_pending (prefersDark : Bool) (doc : Document) (storage : Storage) :
    (DOMContentLoaded prefersDark doc storage).pendingFrames = 0 := by
  unfold DOMContentLoaded
  rw [(init_pendingFrames prefersDark _).2.2.2.2.2.2, (init_pendingFrames prefersDark _).2.2.2.2.2.1,
    (init_pendingFrames prefersDark _).2.2.2.2.1, (init_pendingFrames prefersDark _).2.2.2.1,
    (init_pendingFrames prefersDark _).2.2.1, (init_pendingFrames prefersDark _).2.1,
    (init_pendingFrames prefersDark _).1]
  rfl

theorem run_pending_invariant (s : Page) (events : List Event)
    (h : s.pendingFrames ≤ 1 ∧ (s.ticking = false → s.pendingFrames = 0)) :
    (run s events).pendingFrames ≤ 1 ∧
    ((run s events).ticking = false → (run s events).pendingFrames = 0) := by
  induction events generalizing s with
  | nil => exact h
  | cons ev evs ih =>
    simp only [run, List.foldl_cons] at ih ⊢
    exact ih _ (step_pending_invariant s ev h)

theorem updateHeader_iterate_header (scrollY : ℚ) (n : Nat) (s : Page) :
    ((updateHeader scrollY)^[n] s).doc.header.isSome = s.doc.header.isSome := by
  induction n generalizing s with
  | zero => rfl
  | succ n ih =>
    rw [Function.iterate_succ_apply, ih]
    unfold updateHeader
    split
    · rfl
    · rename_i hd h
      simp [h]

theorem run_header_isSome (s : Page) (events : List Event) :
    (run s events).doc.header.isSome = s.doc.header.isSome := by
  induction events generalizing s with
  | nil => rfl
  | cons ev evs ih =>
    simp only [run, List.foldl_cons] at ih ⊢
    rw [ih]
    rcases (step_frame s ev).2.1 with ⟨y, rfl⟩ | ⟨h, rfl⟩ | h
    · simp only [step, animationFrame]
      exact updateHeader_iterate_header y _ _
    · simp only [step]
      split
      · rfl
      · rename_i hd hh
        simp [hh]
    · rw [h]

theorem DOMContentLoaded_header (prefersDark : Bool) (doc : Document) (storage : Storage) :
    (DOMContentLoaded prefersDark doc storage).doc.header = doc.header := by
  have h := initThemeToggle_doc_congr prefersDark (Page.atLoad doc storage)
    (initMobileNavigation (Page.atLoad doc storage))
    (initMobileNavigation_doc _).1 (initMobileNavigation_doc _).2
  have hdr : (initThemeToggle prefersDark (Page.atLoad doc storage)).doc.header
      = doc.header := by
    simp only [initThemeToggle, Page.atLoad]
    split
    · rfl
    · split <;> rfl
  simp only [DOMContentLoaded, initFormAnimations, initActiveNavOnScroll, initScrollReveal,
    initSmoothScrolling, initHeaderEffects_doc, h, hdr]

theorem updateHeader_scrolled (scrollY : ℚ) (s : Page) (hd : Header)
    (h : s.doc.header = some hd) :
    ∃ hd1, (updateHeader scrollY s).doc.header = some hd1 ∧
      ("scrolled" ∈ hd1.classList ↔ scrollY > 50) := by
  refine ⟨{ hd with classList :=
      if scrollY > scrollThreshold then ClassList.add hd.classList "scrolled"
      else ClassList.remove hd.classList "scrolled" }, ?_, ?_⟩
  · simp [updateHeader, h]
  · by_cases c : scrollY > 50 <;>
      simp [scrollThreshold, c, ClassList.mem_add, ClassList.mem_remove]

/-- C7: after start-up of a document with a header, and after any
interleaving of scroll events, animation frames and other events, at most one
`updateHeader` callback is pending; an animation frame therefore runs
`updateHeader` at most once (it either only finds the queue empty or runs the
one pending callback) and leaves no callback pending; and after a run of
`updateHeader` the header carries `scrolled` if and only if `window.scrollY`
at that moment exceeds 50, so it is absent at 0 and at exactly 50. -/
theorem header_update_once_per_frame (prefersDark : Bool) (doc : Document)
    (storage : Storage) (events : List Event) (hd : Header) (hh : doc.header = some hd) :
    (run (DOMContentLoaded prefersDark doc storage) events).pendingFrames ≤ 1 ∧
    (∀ scrollY : ℚ,
      (step (run (DOMContentLoaded prefersDark doc storage) events)
          (Event.animationFrame scrollY)
        = { run (DOMContentLoaded prefersDark doc storage) events with pendingFrames := 0 } ∨
       step (run (DOMContentLoaded prefersDark doc storage) events)
          (Event.animationFrame scrollY)
        = updateHeader scrollY
            { run (DOMContentLoaded prefersDark doc storage) events with pendingFrames := 0 }) ∧
      (step (run (DOMContentLoaded prefersDark doc storage) events)
          (Event.animationFrame scrollY)).pendingFrames = 0) ∧
    (∀ scrollY : ℚ, ∃ hd1,
      (updateHeader scrollY
        (run (DOMContentLoaded prefersDark doc storage) events)).doc.header = some hd1 ∧
      ("scrolled" ∈ hd1.classList ↔ scrollY > 50)) ∧
    (∃ hd1,
      (updateHeader 0 (run (DOMContentLoaded prefersDark doc storage) events)).doc.header
        = some hd1 ∧ "scrolled" ∉ hd1.classList) ∧
    (∃ hd1,
      (updateHeader 50 (run (DOMContentLoaded prefersDark doc storage) events)).doc.header
        = some hd1 ∧ "scrolled" ∉ hd1.classList) := by
  have inv := run_pending_invariant (DOMContentLoaded prefersDark doc storage) events
    (by rw [DOMContentLoaded_pending]; exact ⟨Nat.zero_le _, fun _ => rfl⟩)
  have hs : (run (DOMContentLoaded prefersDark doc storage) events).doc.header.isSome
      = true := by
    rw [run_header_isSome, DOMContentLoaded_header, hh]
    rfl
  obtain ⟨hd0, hhd0⟩ := Option.isSome_iff_exists.mp hs
  have upd := fun y => updateHeader_scrolled y _ hd0 hhd0
  refine ⟨inv.1, ?_, upd, ?_, ?_⟩
  · intro scrollY
    refine ⟨?_, ?_⟩
    · simp only [step, animationFrame]
      have hle := inv.1
      interval_cases (run (DOMContentLoaded prefersDark doc storage) events).pendingFrames
      · exact Or.inl rfl
      · exact Or.inr rfl
    · simp only [step, animationFrame]
      exact (updateHeader_iterate_frame scrollY _ _).2.1
  · obtain ⟨hd1, h1, h2⟩ := upd 0
    exact ⟨hd1, h1, fun hm => absurd (h2.mp hm) (by norm_num)⟩
  · obtain ⟨hd1, h1, h2⟩ := upd 50
    exact ⟨hd1, h1, fun hm => absurd (h2.mp hm) (by norm_num)⟩


/-- C7 on the sample page after a burst of three scroll events. -/
theorem header_update_once_per_frame_witness :
    sampleDocument.header = some { classList := ["header"], offsetHeight := 80 } ∧
    (run (DOMContentLoaded true sampleDocument [])
      [Event.windowScroll, Event.windowScroll, Event.windowScroll]).pendingFrames ≤ 1 ∧
    (∀ scrollY : ℚ, ∃ hd1,
      (updateHeader scrollY
        (run (DOMContentLoaded true sampleDocument [])
          [Event.windowScroll, Event.windowScroll, Event.windowScroll])).doc.header
        = some hd1 ∧
      ("scrolled" ∈ hd1.classList ↔ scrollY > 50)) :=
  ⟨rfl,
   (header_update_once_per_frame true sampleDocument []
      [Event.windowScroll, Event.windowScroll, Event.windowScroll]
      { classList := ["header"], offsetHeight := 80 } rfl).1,
   (header_update_once_per_frame true sampleDocument []
      [Event.windowScroll, Event.windowScroll, Event.windowScroll]
      { classList := ["header"], offsetHeight := 80 } rfl).2.2.1⟩

/-! ## Scroll reveal -/

theorem revealEntry_element (s : Page) (e : RevealEntry) (i : Nat) (el : RevealElement)
    (h : s.doc.revealElements[i]? = some el) :
    ∃ el1, (revealEntry s e).doc.revealElements[i]? = some el1 ∧
      el1.opacity = el.opacity ∧
      ("revealed" ∈ el.classList → el1 = el) ∧
      (e.target ≠ i → el1 = el) ∧
      (e.isIntersecting = false → el1 = el) ∧
      (e.target = i → e.isIntersecting = true → "revealed" ∈ el1.classList) := by
  unfold revealEntry
  by_cases hi : e.isIntersecting = true
  · by_cases ht : e.target = i
    · refine ⟨{ el with classList := ClassList.add el.classList "revealed" }, ?_, rfl, ?_, ?_,
        ?_, ?_⟩
      · simp [hi, List.getElem?_modify, h, ht]
      · intro hr
        simp [ClassList.add, hr]
      · intro hne; exact absurd ht hne
      · intro hf; simp [hi] at hf
      · intro _ _
        simp [ClassList.mem_add]
    · refine ⟨el, ?_, rfl, fun _ => rfl, fun _ => rfl, fun _ => rfl, fun h1 => absurd h1 ht⟩
      simp [hi, List.getElem?_modify, h, ht]
  · refine ⟨el, ?_, rfl, fun _ => rfl, fun _ => rfl, fun _ => rfl, fun _ h2 => absurd h2 hi⟩
    simp [hi, h]

theorem revealEntry_observed (s : Page) (e : RevealEntry) (i : Nat) :
    i ∈ (revealEntry s e).revealObserved
      ↔ i ∈ s.revealObserved ∧ ¬ (e.isIntersecting = true ∧ e.target = i) := by
  unfold revealEntry
  by_cases hi : e.isIntersecting = true
  · simp only [hi, if_true, List.mem_filter, decide_eq_true_eq, true_and]
    constructor
    · rintro ⟨h1, h2⟩
      exact ⟨h1, fun h => h2 h.symm⟩
    · rintro ⟨h1, h2⟩
      exact ⟨h1, fun h => h2 h.symm⟩
  · simp [hi]

/-- After a reveal callback an element that was revealed is unchanged, the
inline opacity of every element is unchanged, an element that is no longer
observed was not observed before or is revealed now, and no element becomes
observed. -/
theorem revealCallback_element (entries : List RevealEntry) (s : Page) (i : Nat)
    (el : RevealElement) (h : s.doc.revealElements[i]? = some el) :
    ∃ el1, (revealCallback entries s).doc.revealElements[i]? = some el1 ∧
      el1.opacity = el.opacity ∧
      ("revealed" ∈ el.classList → el1 = el) ∧
      (i ∈ (revealCallback entries s).revealObserved → i ∈ s.revealObserved) ∧
      (i ∉ (revealCallback entries s).revealObserved →
        i ∉ s.revealObserved ∨ "revealed" ∈ el1.classList) := by
  induction entries generalizing s el with
  | nil => exact ⟨el, h, rfl, fun _ => rfl, fun x => x, fun x => Or.inl x⟩
  | cons e es ih =>
    obtain ⟨el1, h1, o1, r1, _, _, a1⟩ := revealEntry_element s e i el h
    obtain ⟨el2, h2, o2, r2, m2, u2⟩ := ih (revealEntry s e) el1 h1
    have hobs := revealEntry_observed s e i
    refine ⟨el2, ?_, o2.trans o1, ?_, ?_, ?_⟩
    · simpa [revealCallback] using h2
    · intro hr
      have e1 := r1 hr
      subst e1
      exact r2 hr
    · intro hm
      exact (hobs.mp (m2 (by simpa [revealCallback] using hm))).1
    · intro hn
      rcases u2 (by simpa [revealCallback] using hn) with hu | hu
      · by_cases hs : i ∈ s.revealObserved
        · have hc : e.isIntersecting = true ∧ e.target = i := by
            by_contra hc
            exact hu (hobs.mpr ⟨hs, hc⟩)
          have hr1 := a1 hc.2 hc.1
          right
          have := r2 hr1
          rw [this]
          exact hr1
        · exact Or.inl hs
      · exact Or.inr hu

theorem init_reveal_frame (prefersDark : Bool) (s : Page) :
    ((initMobileNavigation s).doc.revealElements = s.doc.revealElements ∧
      (initMobileNavigation s).revealObserved = s.revealObserved) ∧
    ((initThemeToggle prefersDark s).doc.revealElements = s.doc.revealElements ∧
      (initThemeToggle prefersDark s).revealObserved = s.revealObserved) ∧
    ((initSmoothScrolling s).doc.revealElements = s.doc.revealElements ∧
      (initSmoothScrolling s).revealObserved = s.revealObserved) ∧
    ((initHeaderEffects s).doc.revealElements = s.doc.revealElements ∧
      (initHeaderEffects s).revealObserved = s.revealObserved) := by
  refine ⟨?_, ?_, ⟨rfl, rfl⟩, ?_⟩
  · unfold initMobileNavigation
    split <;> exact ⟨rfl, rfl⟩
  · unfold initThemeToggle
    split
    · exact ⟨rfl, rfl⟩
    · simp only []
      split <;> exact ⟨rfl, rfl⟩
  · unfold initHeaderEffects
    split <;> exact ⟨rfl, rfl⟩

theorem DOMContentLoaded_reveal (prefersDark : Bool) (doc : Document) (storage : Storage) :
    (DOMContentLoaded prefersDark doc storage).doc.revealElements
      = doc.revealElements.mapIdx (fun index el =>
          { el with opacity := "0", transform := "translateY(30px)",
                    transition := some index }) ∧
    (DOMContentLoaded prefersDark doc storage).revealObserved
      = List.range doc.revealElements.length := by
  have h4 := (init_reveal_frame prefersDark (initSmoothScrolling (initThemeToggle prefersDark
    (initMobileNavigation (Page.atLoad doc storage))))).2.2.2
  have h3 := (init_reveal_frame prefersDark (initThemeToggle prefersDark
    (initMobileNavigation (Page.atLoad doc storage)))).2.2.1
  have h2 := (init_reveal_frame prefersDark (initMobileNavigation (Page.atLoad doc storage))).2.1
  have h1 := (init_reveal_frame prefersDark (Page.atLoad doc storage)).1
  have hre : (initHeaderEffects (initSmoothScrolling (initThemeToggle prefersDark
      (initMobileNavigation (Page.atLoad doc storage))))).doc.revealElements
        = doc.revealElements := by
    rw [h4.1, h3.1, h2.1, h1.1]; rfl
  have hob : (initHeaderEffects (initSmoothScrolling (initThemeToggle prefersDark
      (initMobileNavigation (Page.atLoad doc storage))))).revealObserved = [] := by
    rw [h4.2, h3.2, h2.2, h1.2]; rfl
  simp only [DOMContentLoaded, initFormAnimations, initActiveNavOnScroll, initScrollReveal,
    hre, hob, List.nil_append, and_self]

theorem step_reveal_element (s : Page) (ev : Event) (i : Nat) (el : RevealElement)
    (h : s.doc.revealElements[i]? = some el) :
    ∃ el1, (step s ev).doc.revealElements[i]? = some el1 ∧
      el1.opacity = el.opacity ∧
      ("revealed" ∈ el.classList → el1 = el) ∧
      (i ∈ (step s ev).revealObserved → i ∈ s.revealObserved) ∧
      (i ∉ (step s ev).revealObserved → i ∉ s.revealObserved ∨ "revealed" ∈ el1.classList) := by
  rcases (step_frame s ev).2.2 with ⟨es, rfl⟩ | ⟨h1, h2⟩
  · exact revealCallback_element _ s i el h
  · rw [h1, h2]
    exact ⟨el, h, rfl, fun _ => rfl, fun x => x, fun x => Or.inl x⟩

/-- After start-up and any sequence of events every reveal element still has
the inline opacity `0`, and one that is no longer observed carries `revealed`. -/
theorem run_reveal_invariant (prefersDark : Bool) (doc : Document) (storage : Storage)
    (events : List Event) (i : Nat) (hi : i < doc.revealElements.length) :
    ∃ el, (run (DOMContentLoaded prefersDark doc storage) events).doc.revealElements[i]?
        = some el ∧
      el.opacity = "0" ∧
      (i ∉ (run (DOMContentLoaded prefersDark doc storage) events).revealObserved →
        "revealed" ∈ el.classList) := by
  induction events using List.reverseRecOn with
  | nil =>
    obtain ⟨hre, hob⟩ := DOMContentLoaded_reveal prefersDark doc storage
    obtain ⟨x, hx⟩ : ∃ x, doc.revealElements[i]? = some x :=
      ⟨_, List.getElem?_eq_getElem hi⟩
    refine ⟨{ x with opacity := "0", transform := "translateY(30px)", transition := some i },
      ?_, rfl, ?_⟩
    · simp [run, hre, List.getElem?_mapIdx, hx]
    · intro hn
      exact absurd (by simp [run, hob, hi]) hn
  | append_singleton evs ev ih =>
    obtain ⟨el, h, ho, hr⟩ := ih
    obtain ⟨el1, h1, o1, r1, m1, u1⟩ := step_reveal_element _ ev i el h
    refine ⟨el1, ?_, o1.trans ho, ?_⟩
    · simpa [run, List.foldl_append] using h1
    · intro hn
      rcases u1 (by simpa [run, List.foldl_append] using hn) with hu | hu
      · have hrev := hr hu
        rw [r1 hrev]
        exact hrev
      · exact hu

theorem revealCallback_cons (e : RevealEntry) (es : List RevealEntry) (s : Page) :
    revealCallback (e :: es) s = revealCallback es (revealEntry s e) := by
  simp [revealCallback]

theorem revealCallback_append (pre post : List RevealEntry) (s : Page) :
    revealCallback (pre ++ post) s = revealCallback post (revealCallback pre s) := by
  simp [revealCallback, List.foldl_append]

theorem revealEntry_reveals (s : Page) (e : RevealEntry) (i : Nat) (el : RevealElement)
    (h : s.doc.revealElements[i]? = some el) (ht : e.target = i)
    (hint : e.isIntersecting = true) :
    (revealEntry s e).doc.revealElements[i]?
      = some { el with classList := ClassList.add el.classList "revealed" } := by
  simp [revealEntry, hint, List.getElem?_modify, h, ht]

/-- A batch with an intersecting entry for an element leaves the element with
`revealed` added to its class list, nothing else changed, and not observed. -/
theorem revealCallback_reveals (entries : List RevealEntry) (s : Page) (i : Nat)
    (el : RevealElement) (h : s.doc.revealElements[i]? = some el)
    (hex : ∃ e ∈ entries, e.target = i ∧ e.isIntersecting = true) :
    (revealCallback entries s).doc.revealElements[i]?
      = some { el with classList := ClassList.add el.classList "revealed" } ∧
    i ∉ (revealCallback entries s).revealObserved := by
  induction entries generalizing s with
  | nil =>
    obtain ⟨e, he, _⟩ := hex
    cases he
  | cons e es ih =>
    rw [revealCallback_cons]
    obtain ⟨el1, h1, _, _, n1, f1, _⟩ := revealEntry_element s e i el h
    by_cases hc : e.target = i ∧ e.isIntersecting = true
    · have hx := revealEntry_reveals s e i el h hc.1 hc.2
      have hrev : "revealed" ∈ ClassList.add el.classList "revealed" := by
        simp [ClassList.mem_add]
      obtain ⟨el2, h2, _, r2, m2, _⟩ := revealCallback_element es (revealEntry s e) i _ hx
      refine ⟨?_, ?_⟩
      · rw [h2, r2 hrev]
      · intro hm
        exact ((revealEntry_observed s e i).mp (m2 hm)).2 ⟨hc.2, hc.1⟩
    · have hel : el1 = el := by
        by_cases ht : e.target = i
        · apply f1
          cases hb : e.isIntersecting
          · rfl
          · exact absurd ⟨ht, hb⟩ hc
        · exact n1 ht
      rw [hel] at h1
      apply ih (revealEntry s e) h1
      obtain ⟨x, hx, hx1⟩ := hex
      rcases List.mem_cons.mp hx with rfl | hx2
      · exact absurd hx1 hc
      · exact ⟨x, hx2, hx1⟩

/-- A batch without an intersecting entry for an element leaves the element and
its observation as they are. -/
theorem revealCallback_leaves (entries : List RevealEntry) (s : Page) (i : Nat)
    (el : RevealElement) (h : s.doc.revealElements[i]? = some el)
    (hno : ∀ e ∈ entries, e.target = i → e.isIntersecting = false) :
    (revealCallback entries s).doc.revealElements[i]? = some el ∧
    (i ∈ (revealCallback entries s).revealObserved ↔ i ∈ s.revealObserved) := by
  induction entries generalizing s with
  | nil => exact ⟨h, Iff.rfl⟩
  | cons e es ih =>
    rw [revealCallback_cons]
    obtain ⟨el1, h1, _, _, n1, f1, _⟩ := revealEntry_element s e i el h
    have hel : el1 = el := by
      by_cases ht : e.target = i
      · exact f1 (hno e (List.mem_cons_self _ _) ht)
      · exact n1 ht
    rw [hel] at h1
    obtain ⟨g1, g2⟩ := ih (revealEntry s e) h1
      (fun x hx => hno x (List.mem_cons_of_mem _ hx))
    refine ⟨g1, g2.trans ?_⟩
    rw [revealEntry_observed]
    constructor
    · exact fun hh => hh.1
    · intro hh
      refine ⟨hh, fun hc => ?_⟩
      have := hno e (List.mem_cons_self _ _) hc.2
      rw [hc.1] at this
      cases this

/-- C8: after start-up every reveal element has the inline opacity `0` and is
observed.  In every state reached afterwards the inline opacity is still `0`
and an element that is no longer observed carries `revealed`; a callback entry
in which the element is not intersecting changes nothing; an entry in which it
is intersecting leaves it with the class `revealed` and takes it out of the
observed targets; and every event of the script keeps `revealed` on an element
that carries it, leaves such an element as it is, and never observes again an
element that is no longer observed, so the reveal happens once and is never
undone.  The observer callback itself does it: delivered for an observed
element with an intersecting entry, it leaves the element with `revealed`
added to its class list and nothing else changed, and not observed; delivered
without an intersecting entry for the element, it leaves the element and its
observation as they are; and within a batch the entries before the first
intersecting one leave the element as it is, that entry adds `revealed` and
stops the observation, and the entries after it change the element no more. -/
theorem reveal_happens_once (prefersDark : Bool) (doc : Document) (storage : Storage)
    (events : List Event) (i : Nat) (hi : i < doc.revealElements.length) :
    (∃ el0, (DOMContentLoaded prefersDark doc storage).doc.revealElements[i]? = some el0 ∧
      el0.opacity = "0" ∧ i ∈ (DOMContentLoaded prefersDark doc storage).revealObserved) ∧
    ∃ el, (run (DOMContentLoaded prefersDark doc storage) events).doc.revealElements[i]?
        = some el ∧
      el.opacity = "0" ∧
      (i ∉ (run (DOMContentLoaded prefersDark doc storage) events).revealObserved →
        "revealed" ∈ el.classList) ∧
      (∀ e : RevealEntry, e.isIntersecting = false →
        revealEntry (run (DOMContentLoaded prefersDark doc storage) events) e
          = run (DOMContentLoaded prefersDark doc storage) events) ∧
      (∀ e : RevealEntry, e.target = i → e.isIntersecting = true →
        ∃ el1,
          (revealEntry (run (DOMContentLoaded prefersDark doc storage) events)
            e).doc.revealElements[i]? = some el1 ∧
          "revealed" ∈ el1.classList ∧
          i ∉ (revealEntry (run (DOMContentLoaded prefersDark doc storage) events)
            e).revealObserved) ∧
      (∀ ev : Event,
        ∃ el1,
          (step (run (DOMContentLoaded prefersDark doc storage) events)
            ev).doc.revealElements[i]? = some el1 ∧
          el1.opacity = "0" ∧
          ("revealed" ∈ el.classList → el1 = el) ∧
          (i ∉ (run (DOMContentLoaded prefersDark doc storage) events).revealObserved →
            el1 = el ∧
            i ∉ (step (run (DOMContentLoaded prefersDark doc storage) events)
              ev).revealObserved)) ∧
      (∀ entries : List RevealEntry,
        i ∈ (run (DOMContentLoaded prefersDark doc storage) events).revealObserved →
        (∃ e ∈ entries, e.target = i ∧ e.isIntersecting = true) →
        (step (run (DOMContentLoaded prefersDark doc storage) events)
            (Event.revealCallback entries)).doc.revealElements[i]?
          = some { el with classList := ClassList.add el.classList "revealed" } ∧
        "revealed" ∈ ClassList.add el.classList "revealed" ∧
        i ∉ (step (run (DOMContentLoaded prefersDark doc storage) events)
            (Event.revealCallback entries)).revealObserved) ∧
      (∀ entries : List RevealEntry,
        (∀ e ∈ entries, e.target = i → e.isIntersecting = false) →
        (step (run (DOMContentLoaded prefersDark doc storage) events)
            (Event.revealCallback entries)).doc.revealElements[i]? = some el ∧
        (i ∈ (step (run (DOMContentLoaded prefersDark doc storage) events)
            (Event.revealCallback entries)).revealObserved
          ↔ i ∈ (run (DOMContentLoaded prefersDark doc storage) events).revealObserved)) ∧
      (∀ (pre : List RevealEntry) (e : RevealEntry) (post : List RevealEntry),
        (∀ x ∈ pre, x.target = i → x.isIntersecting = false) →
        e.target = i → e.isIntersecting = true →
        (revealCallback pre
            (run (DOMContentLoaded prefersDark doc storage) events)).doc.revealElements[i]?
          = some el ∧
        (revealCallback (pre ++ [e])
            (run (DOMContentLoaded prefersDark doc storage) events)).doc.revealElements[i]?
          = some { el with classList := ClassList.add el.classList "revealed" } ∧
        i ∉ (revealCallback (pre ++ [e])
            (run (DOMContentLoaded prefersDark doc storage) events)).revealObserved ∧
        (revealCallback (pre ++ e :: post)
            (run (DOMContentLoaded prefersDark doc storage) events)).doc.revealElements[i]?
          = some { el with classList := ClassList.add el.classList "revealed" } ∧
        i ∉ (revealCallback (pre ++ e :: post)
            (run (DOMContentLoaded prefersDark doc storage) events)).revealObserved) := by
  obtain ⟨el0, h0, o0, _⟩ := run_reveal_invariant prefersDark doc storage [] i hi
  obtain ⟨el, h, ho, hr⟩ := run_reveal_invariant prefersDark doc storage events i hi
  refine ⟨⟨el0, h0, o0, ?_⟩, el, h, ho, hr, ?_, ?_, ?_, ?_, ?_, ?_⟩
  · rw [(DOMContentLoaded_reveal prefersDark doc storage).2]
    simp [hi]
  · intro e he
    simp [revealEntry, he]
  · intro e ht hint
    obtain ⟨el1, h1, _, _, _, _, a1⟩ := revealEntry_element _ e i el h
    refine ⟨el1, h1, a1 ht hint, ?_⟩
    rw [revealEntry_observed]
    exact fun hc => hc.2 ⟨hint, ht⟩
  · intro ev
    obtain ⟨el1, h1, o1, r1, m1, _⟩ := step_reveal_element _ ev i el h
    refine ⟨el1, h1, o1.trans ho, r1, ?_⟩
    intro hn
    exact ⟨r1 (hr hn), fun hm => hn (m1 hm)⟩
  · intro entries hobs hex
    obtain ⟨e, he, het, hei⟩ := hex
    have hex1 : ∃ x ∈ entries.filter (fun x => x.target ∈
        (run (DOMContentLoaded prefersDark doc storage) events).revealObserved),
        x.target = i ∧ x.isIntersecting = true := by
      refine ⟨e, ?_, het, hei⟩
      simp [List.mem_filter, he, het, hobs]
    obtain ⟨g1, g2⟩ := revealCallback_reveals _ _ i el h hex1
    exact ⟨g1, by simp [ClassList.mem_add], g2⟩
  · intro entries hno
    exact revealCallback_leaves _ _ i el h
      (fun x hx => hno x (List.mem_filter.mp hx).1)
  · intro pre e post hpre het hei
    obtain ⟨p1, _⟩ := revealCallback_leaves pre _ i el h hpre
    obtain ⟨q1, q2⟩ := revealCallback_reveals (pre ++ [e]) _ i el h
      ⟨e, by simp, het, hei⟩
    obtain ⟨r1, r2⟩ := revealCallback_reveals (pre ++ e :: post) _ i el h
      ⟨e, by simp, het, hei⟩
    exact ⟨p1, q1, q2, r1, r2⟩

/-- C8 on the sample page for the first reveal element: it starts hidden and
observed, and the first callback that reports it as intersecting (after an
entry in which it is not) leaves it with the class `revealed` and not
observed. -/
theorem reveal_happens_once_witness :
    0 < sampleDocument.revealElements.length ∧
    (∃ el0, (DOMContentLoaded true sampleDocument []).doc.revealElements[0]? = some el0 ∧
      el0.opacity = "0" ∧ 0 ∈ (DOMContentLoaded true sampleDocument []).revealObserved) ∧
    (∃ el1,
      (step (run (DOMContentLoaded true sampleDocument []) [Event.windowScroll])
          (Event.revealCallback
            [{ target := 0, isIntersecting := false },
             { target := 0, isIntersecting := true }])).doc.revealElements[0]? = some el1 ∧
      "revealed" ∈ el1.classList ∧
      0 ∉ (step (run (DOMContentLoaded true sampleDocument []) [Event.windowScroll])
          (Event.revealCallback
            [{ target := 0, isIntersecting := false },
             { target := 0, isIntersecting := true }])).revealObserved) := by
  obtain ⟨h0, el, _, _, _, _, _, _, hC, _, _⟩ :=
    reveal_happens_once true sampleDocument [] [Event.windowScroll] 0 (by decide)
  obtain ⟨g1, g2, g3⟩ := hC
    [{ target := 0, isIntersecting := false }, { target := 0, isIntersecting := true }]
    (by decide) ⟨{ target := 0, isIntersecting := true }, by decide, rfl, rfl⟩
  exact ⟨by decide, h0, _, g1, g2, g3⟩

/-! ## Controllers whose elements are absent -/

/-- C9 (amended): when the elements a controller works on are absent, six of
the seven controllers are silent no-ops: `initMobileNavigation`,
`initThemeToggle`, `initHeaderEffects`, `initActiveNavOnScroll` and
`initFormAnimations` return the page as it is, and `initSmoothScrolling` only
assigns its captured `headerOffset`; none registers a listener or an observer
target or changes the document or the storage.  `initScrollReveal` observes
nothing when no reveal element exists, but it still appends its style element
to the head of the document.  (The controllers are total functions: none of
them ends with an exception.) -/
theorem controllers_without_elements (prefersDark : Bool) (s : Page) :
    (s.doc.mobileToggle = none ∨ s.doc.navList = none → initMobileNavigation s = s) ∧
    (s.doc.themeToggle = none → initThemeToggle prefersDark s = s) ∧
    (s.doc.anchors = [] →
      initSmoothScrolling s
        = { s with headerOffset := (initSmoothScrolling s).headerOffset }) ∧
    (s.doc.header = none → initHeaderEffects s = s) ∧
    (s.doc.revealElements = [] →
      initScrollReveal s
        = { s with doc := { s.doc with headStyles := s.doc.headStyles ++ [revealedRule] } }) ∧
    (s.doc.sections = [] → initActiveNavOnScroll s = s) ∧
    (s.doc.formInputs = [] → initFormAnimations s = s) := by
  refine ⟨?_, ?_, ?_, ?_, ?_, ?_, ?_⟩
  · intro h
    unfold initMobileNavigation
    rcases h with h | h
    · split
      · rename_i h1 _
        rw [h] at h1
        cases h1
      · rfl
    · split
      · rename_i _ h2
        rw [h] at h2
        cases h2
      · rfl
  · intro h
    simp [initThemeToggle, h]
  · intro h
    simp [initSmoothScrolling, h]
  · intro h
    simp [initHeaderEffects, h]
  · intro h
    simp [initScrollReveal, h]
  · intro h
    simp [initActiveNavOnScroll, h]
  · intro h
    simp [initFormAnimations, h]

/-- C9 (as stated) fails for `initScrollReveal`: in a document without any
reveal element the controller still changes the document, the head gains the
style element with the `.revealed` rule. -/
theorem initScrollReveal_always_adds_style :
    (Page.atLoad emptyDocument []).doc.revealElements = [] ∧
    (Page.atLoad emptyDocument []).doc.headStyles = [] ∧
    (initScrollReveal (Page.atLoad emptyDocument [])).doc.headStyles = [revealedRule] ∧
    (DOMContentLoaded true emptyDocument []).doc.headStyles = [revealedRule] := by
  decide

/-! ## Active nav link on scroll -/

theorem sectionCallback_append (es : List SectionEntry) (e : SectionEntry) (s : Page) :
    sectionCallback (es ++ [e]) s = sectionEntry (sectionCallback es s) e := by
  simp [sectionCallback, List.foldl_append]

theorem sectionEntry_href (s : Page) (e : SectionEntry) :
    (sectionEntry s e).doc.navLinks.map NavLink.href = s.doc.navLinks.map NavLink.href := by
  unfold sectionEntry
  split
  · simp only [List.map_map]
    apply List.map_congr_left
    intro l _
    simp only [Function.comp]
    split <;> rfl
  · rfl

theorem sectionCallback_href (es : List SectionEntry) (s : Page) :
    (sectionCallback es s).doc.navLinks.map NavLink.href = s.doc.navLinks.map NavLink.href := by
  induction es using List.reverseRecOn with
  | nil => rfl
  | append_singleton es e ih => rw [sectionCallback_append, sectionEntry_href, ih]

/-- After a batch with an intersecting entry the nav links are those of some
earlier list with the same hrefs, each marked for the id of the last
intersecting entry. -/
theorem sectionCallback_last (es : List SectionEntry) (s : Page) (last : SectionEntry)
    (h : (es.filter (fun e => e.isIntersecting)).getLast? = some last) :
    ∃ L : List NavLink, L.map NavLink.href = s.doc.navLinks.map NavLink.href ∧
      (sectionCallback es s).doc.navLinks = L.map (fun link =>
        if link.href = some ("#" ++ last.target.id) then
          { link with classList :=
              ClassList.add (ClassList.remove link.classList "active") "active" }
        else
          { link with classList := ClassList.remove link.classList "active" }) := by
  induction es using List.reverseRecOn with
  | nil => simp at h
  | append_singleton es e ih =>
    rw [sectionCallback_append]
    by_cases he : e.isIntersecting = true
    · have hl : last = e := by
        simpa [List.filter_append, he, List.getLast?_append] using h.symm
      subst hl
      refine ⟨(sectionCallback es s).doc.navLinks, sectionCallback_href es s, ?_⟩
      simp [sectionEntry, he]
    · have h1 : (es.filter (fun e => e.isIntersecting)).getLast? = some last := by
        simpa [List.filter_append, he] using h
      obtain ⟨L, hL, hr⟩ := ih h1
      refine ⟨L, hL, ?_⟩
      simpa [sectionEntry, he] using hr


/-- C10 (amended): after a section-observer callback whose batch contains an
intersecting entry, a nav link carries `active` if and only if its href is
`#` followed by the id of the last intersecting entry; the hrefs are as
before, so the number of nav links that carry `active` is the number of nav
links with that href, and at most one nav link carries `active` when at most
one nav link has that href.  A batch without an intersecting entry leaves the
page as it is. -/
theorem sectionCallback_marks_last (s : Page) (entries : List SectionEntry) :
    (∀ last, (entries.filter (fun e => e.isIntersecting)).getLast? = some last →
      (∀ (i : Nat) (link : NavLink), (sectionCallback entries s).doc.navLinks[i]? = some link →
        ("active" ∈ link.classList ↔ link.href = some ("#" ++ last.target.id))) ∧
      (sectionCallback entries s).doc.navLinks.map NavLink.href
        = s.doc.navLinks.map NavLink.href ∧
      ((sectionCallback entries s).doc.navLinks.filter
          (fun l => "active" ∈ l.classList)).length
        = (s.doc.navLinks.filter
            (fun l => l.href = some ("#" ++ last.target.id))).length ∧
      ((s.doc.navLinks.filter
            (fun l => l.href = some ("#" ++ last.target.id))).length ≤ 1 →
        ((sectionCallback entries s).doc.navLinks.filter
          (fun l => "active" ∈ l.classList)).length ≤ 1)) ∧
    ((∀ e ∈ entries, e.isIntersecting = false) → sectionCallback entries s = s) := by
  refine ⟨?_, ?_⟩
  · intro last hlast
    obtain ⟨L, hL, hr⟩ := sectionCallback_last entries s last hlast
    have hcount : ((sectionCallback entries s).doc.navLinks.filter
          (fun l => "active" ∈ l.classList)).length
        = (s.doc.navLinks.filter
            (fun l => l.href = some ("#" ++ last.target.id))).length := by
      rw [hr, ← List.countP_eq_length_filter, ← List.countP_eq_length_filter, List.countP_map]
      have e1 : List.countP (fun l : NavLink => decide (l.href = some ("#" ++ last.target.id)))
            s.doc.navLinks
          = List.countP (fun h : Option String => decide (h = some ("#" ++ last.target.id)))
            (s.doc.navLinks.map NavLink.href) := by
        rw [List.countP_map]; rfl
      rw [e1, ← hL, List.countP_map]
      apply List.countP_congr
      intro l _
      by_cases c : l.href = some ("#" ++ last.target.id) <;>
        simp [c, ClassList.mem_add, ClassList.mem_remove]
    refine ⟨?_, sectionCallback_href entries s, hcount, fun h1 => hcount ▸ h1⟩
    intro i link hi
    rw [hr, List.getElem?_map] at hi
    cases hLi : L[i]? with
    | none => simp [hLi] at hi
    | some l =>
      simp only [hLi, Option.map_some', Option.some.injEq] at hi
      subst hi
      by_cases c : l.href = some ("#" ++ last.target.id) <;>
        simp [c, ClassList.mem_add, ClassList.mem_remove]
  · intro h
    induction entries using List.reverseRecOn with
    | nil => rfl
    | append_singleton es e ih =>
      rw [sectionCallback_append, ih (fun x hx => h x (List.mem_append_left _ hx))]
      simp [sectionEntry, h e (by simp)]

/-- C10 (as stated) fails: in the document where two nav links point to
`#home`, after the callback that reports the section `home` as intersecting
both of them carry `active`. -/
theorem sectionCallback_marks_twin_links :
    { id := "home" } ∈ (DOMContentLoaded true twinLinkDocument []).sectionObserved ∧
    ((step (DOMContentLoaded true twinLinkDocument [])
        (Event.sectionCallback [{ target := { id := "home" }, isIntersecting := true }])).doc.navLinks.filter
      (fun l => "active" ∈ l.classList)).length = 2 := by
  decide


/-- C9 (amended) on the document in which none of the elements exists. -/
theorem controllers_without_elements_witness :
    initMobileNavigation (Page.atLoad emptyDocument []) = Page.atLoad emptyDocument [] ∧
    initThemeToggle true (Page.atLoad emptyDocument []) = Page.atLoad emptyDocument [] ∧
    initSmoothScrolling (Page.atLoad emptyDocument [])
      = { Page.atLoad emptyDocument [] with headerOffset := 70 } ∧
    initHeaderEffects (Page.atLoad emptyDocument []) = Page.atLoad emptyDocument [] ∧
    initScrollReveal (Page.atLoad emptyDocument [])
      = { Page.atLoad emptyDocument [] with
          doc := { emptyDocument with headStyles := [revealedRule] } } ∧
    initActiveNavOnScroll (Page.atLoad emptyDocument []) = Page.atLoad emptyDocument [] ∧
    initFormAnimations (Page.atLoad emptyDocument []) = Page.atLoad emptyDocument [] :=
  ⟨(controllers_without_elements true (Page.atLoad emptyDocument [])).1 (Or.inl rfl),
   (controllers_without_elements true (Page.atLoad emptyDocument [])).2.1 rfl,
   (controllers_without_elements true (Page.atLoad emptyDocument [])).2.2.1 rfl,
   (controllers_without_elements true (Page.atLoad emptyDocument [])).2.2.2.1 rfl,
   (controllers_without_elements true (Page.atLoad emptyDocument [])).2.2.2.2.1 rfl,
   (controllers_without_elements true (Page.atLoad emptyDocument [])).2.2.2.2.2.1 rfl,
   (controllers_without_elements true (Page.atLoad emptyDocument [])).2.2.2.2.2.2 rfl⟩

/-- C10 (amended) on the sample page, for a batch in which `about` intersects
and `home` does not. -/
theorem sectionCallback_marks_last_witness :
    (∀ (i : Nat) (link : NavLink),
      (sectionCallback
        [{ target := { id := "about" }, isIntersecting := true },
         { target := { id := "home" }, isIntersecting := false }]
        samplePage).doc.navLinks[i]? = some link →
      ("active" ∈ link.classList ↔ link.href = some ("#" ++ "about"))) ∧
    ((sectionCallback
        [{ target := { id := "about" }, isIntersecting := true },
         { target := { id := "home" }, isIntersecting := false }]
        samplePage).doc.navLinks.filter (fun l => "active" ∈ l.classList)).length ≤ 1 :=
  ⟨((sectionCallback_marks_last samplePage
      [{ target := { id := "about" }, isIntersecting := true },
       { target := { id := "home" }, isIntersecting := false }]).1
      { target := { id := "about" }, isIntersecting := true } (by decide)).1,
   ((sectionCallback_marks_last samplePage
      [{ target := { id := "about" }, isIntersecting := true },
       { target := { id := "home" }, isIntersecting := false }]).1
      { target := { id := "about" }, isIntersecting := true } (by decide)).2.2.2 (by decide)⟩

end Portfolio
